import Mathlib

set_option maxRecDepth 100000

/-!
Verification development for the `interrrp/chip8` repository.

The repository contains a live interpreter (`src/main.rs`, the only module
compiled into the binary) together with several abandoned drafts
(`emulator.rs`, `instructions.rs`, `instruction.rs`, `memory.rs`,
`stack.rs`, `processor.rs`, `chip8.rs`, ...).  Each Rust source construct
relevant to the claims is embedded shallowly below:

* machine bytes (`u8`) and words (`usize`, `u16`) become `Nat`, with
  wrap-around written explicitly as `% 256` / `% 65536` where the Rust
  code wraps;
* bit-field extraction with contiguous masks (`op & 0x0FFF`,
  `(op & 0xF000) >> 12`, `v & 1`, `(v & 0x80) >> 7`, ...) is written with
  the equivalent `/` and `%` arithmetic;
* `&mut self` methods become functions `State → State`;
* fallible operations (`Result`, and Rust index-out-of-bounds panics)
  become `Except`/`Option`;
* `Vec<usize>` used as a LIFO call stack becomes a cons list whose head
  is the top of the stack.
-/

namespace Chip8Main

/-- Display constants from `main.rs`. -/
def DISPLAY_WIDTH : Nat := 64

/-- Display height from `main.rs`. -/
def DISPLAY_HEIGHT : Nat := 32

/-- Memory size constant from `main.rs` (note: `0xFFF = 4095`). -/
def MEMORY_SIZE : Nat := 0xFFF

/-- Program start address from `main.rs`. -/
def MEMORY_PROGRAM_START : Nat := 0x200

/-- Fontset size from `main.rs`. -/
def FONTSET_SIZE : Nat := 80

/-- The 80 font bytes from `main.rs` (identical in `memory.rs`). -/
def FONTSET : List Nat :=
  [0xF0, 0x90, 0x90, 0x90, 0xF0,
   0x20, 0x60, 0x20, 0x20, 0x70,
   0xF0, 0x10, 0xF0, 0x80, 0xF0,
   0xF0, 0x10, 0xF0, 0x10, 0xF0,
   0x90, 0x90, 0xF0, 0x10, 0x10,
   0xF0, 0x80, 0xF0, 0x10, 0xF0,
   0xF0, 0x80, 0xF0, 0x90, 0xF0,
   0xF0, 0x10, 0x20, 0x40, 0x40,
   0xF0, 0x90, 0xF0, 0x90, 0xF0,
   0xF0, 0x90, 0xF0, 0x10, 0xF0,
   0xF0, 0x90, 0xF0, 0x90, 0x90,
   0xE0, 0x90, 0xE0, 0x90, 0xE0,
   0xF0, 0x80, 0x80, 0x80, 0xF0,
   0xE0, 0x90, 0x90, 0x90, 0xE0,
   0xF0, 0x80, 0xF0, 0x80, 0xF0,
   0xF0, 0x80, 0xF0, 0x80, 0x80]

/-- The register file of `main.rs` (`struct Registers`): sixteen `u8`
data registers and the index register `i : usize`. -/
structure Registers where
  data : List Nat
  i : Nat
  deriving Repr, DecidableEq

/-- Embeds `Registers::new` from `main.rs`. -/
def Registers.new : Registers := { data := List.replicate 16 0, i := 0 }

/-- Indexing `self.registers[k]`.  Every index produced by the decoder is a
nibble `< 16 = data.length`, so the `getD` default is never consulted on
states arising from the program. -/
def Registers.get (r : Registers) (k : Nat) : Nat := r.data.getD k 0

/-- Assignment `self.registers[k] = v`. -/
def Registers.set (r : Registers) (k v : Nat) : Registers :=
  { r with data := r.data.set k v }

/-- Host input visible to one executed instruction: the window backend of
`main.rs` (`get_pressed_key`, `is_key_down`) and the `fastrand::u8` call.
The Rust host yields `u8` key codes and random bytes. -/
structure Input where
  pressed_key : Option Nat
  key_down : Nat → Bool
  random_byte : Nat

/-- The whole machine of `main.rs` (`struct Emulator` plus the parts of
`Memory` and `Window` it owns): memory buffer, registers, call stack
(`Vec<usize>`, embedded with the head of the list as the top), the 64×32
boolean display buffer, program counter and the two timers. -/
structure Emulator where
  memory : List Nat
  registers : Registers
  call_stack : List Nat
  buffer : List Bool
  program_counter : Nat
  delay_timer : Nat
  sound_timer : Nat
  deriving Repr, DecidableEq

/-- The decoded field bundle of `main.rs` (`struct Instruction`). -/
structure Instruction where
  opcode : Nat
  op : Nat
  x : Nat
  y : Nat
  n : Nat
  nn : Nat
  nnn : Nat
  deriving Repr, DecidableEq

/-- Embeds `Instruction::from_opcode` of `main.rs`: the mask-and-shift field
extraction, written with the equivalent `/`/`%` arithmetic
(`(opcode & 0xF000) >> 12 = opcode / 4096`, and so on). -/
def Instruction.from_opcode (opcode : Nat) : Instruction :=
  { opcode := opcode
    op := opcode / 4096
    x := opcode / 256 % 16
    y := opcode / 16 % 16
    n := opcode % 16
    nn := opcode % 256
    nnn := opcode % 4096 }

/-- Execution errors of `main.rs`: the `anyhow` errors returned by
`do_instruction`, plus `panic` for a Rust index-out-of-bounds abort. -/
inductive ExecErr where
  | unknown_instruction (opcode : Nat)
  | ret_outside_subroutine
  | panic
  deriving Repr, DecidableEq

/-- Embeds `Memory::new` of `main.rs`: a zeroed buffer of `MEMORY_SIZE` bytes
with the fontset copied to the front. -/
def memory_new : List Nat := FONTSET ++ List.replicate (MEMORY_SIZE - FONTSET_SIZE) 0

/-- Embeds `copy_from_slice` into `buf[base .. base + bytes.len()]`. -/
def splice_at (base : Nat) (bytes target : List Nat) : List Nat :=
  target.take base ++ bytes ++ target.drop (base + bytes.length)

/-- Embeds `Memory::load_program_bytes` of `main.rs`: copy the program to
`0x200..`; the Rust slice indexing panics (`none`) when the program does
not fit. -/
def load_program_bytes (program_bytes mem : List Nat) : Option (List Nat) :=
  if MEMORY_PROGRAM_START + program_bytes.length ≤ mem.length then
    some (splice_at MEMORY_PROGRAM_START program_bytes mem)
  else
    none

/-- Embeds `Emulator::new` followed by `load_program_file` in `main.rs`:
a fresh machine (pc = 0x200, zero registers/timers, empty stack, clear
display) with the program bytes loaded at 0x200. -/
def init_machine (program_bytes : List Nat) : Option Emulator :=
  (load_program_bytes program_bytes memory_new).map fun mem =>
    { memory := mem
      registers := Registers.new
      call_stack := []
      buffer := List.replicate (DISPLAY_WIDTH * DISPLAY_HEIGHT) false
      program_counter := MEMORY_PROGRAM_START
      delay_timer := 0
      sound_timer := 0 }

/-- Embeds `Window::clear` as called by `Emulator::clear_screen` (opcode 00E0). -/
def clear_screen (s : Emulator) : Emulator :=
  { s with buffer := List.replicate (DISPLAY_WIDTH * DISPLAY_HEIGHT) false }

/-- Embeds `Emulator::return_from_subroutine` (00EE): pop the `Vec` (top of
stack is the list head) or fail with the `RET outside subroutine` error. -/
def return_from_subroutine (s : Emulator) : Except ExecErr Emulator :=
  match s.call_stack with
  | addr :: rest =>
      .ok { s with program_counter := addr, call_stack := rest }
  | [] => .error .ret_outside_subroutine

/-- Embeds `Emulator::jump` (1nnn). -/
def jump (s : Emulator) (nnn : Nat) : Emulator :=
  { s with program_counter := nnn }

/-- Embeds `Emulator::call_subroutine` (2nnn): push the (already incremented)
program counter onto the unbounded `Vec` stack, then jump. -/
def call_subroutine (s : Emulator) (nnn : Nat) : Emulator :=
  { s with call_stack := s.program_counter :: s.call_stack
           program_counter := nnn }

/-- Embeds `Emulator::skip_if_vx_equal_nn` (3xkk). -/
def skip_if_vx_equal_nn (s : Emulator) (x nn : Nat) : Emulator :=
  if s.registers.get x = nn then
    { s with program_counter := s.program_counter + 2 }
  else s

/-- Embeds `Emulator::skip_if_vx_not_equal_nn` (4xkk). -/
def skip_if_vx_not_equal_nn (s : Emulator) (x nn : Nat) : Emulator :=
  if s.registers.get x ≠ nn then
    { s with program_counter := s.program_counter + 2 }
  else s

/-- Embeds `Emulator::skip_if_vx_equal_vy` (5xy*; `main.rs` places no condition
on the low nibble). -/
def skip_if_vx_equal_vy (s : Emulator) (x y : Nat) : Emulator :=
  if s.registers.get x = s.registers.get y then
    { s with program_counter := s.program_counter + 2 }
  else s

/-- Embeds `Emulator::store_nn_in_vx` (6xkk). -/
def store_nn_in_vx (s : Emulator) (x nn : Nat) : Emulator :=
  { s with registers := s.registers.set x nn }

/-- Embeds `Emulator::add_nn_to_vx` (7xkk): `u8::wrapping_add`. -/
def add_nn_to_vx (s : Emulator) (x nn : Nat) : Emulator :=
  { s with registers := s.registers.set x ((s.registers.get x + nn) % 256) }

/-- Embeds `Emulator::store_vy_in_vx` (8xy0). -/
def store_vy_in_vx (s : Emulator) (x y : Nat) : Emulator :=
  { s with registers := s.registers.set x (s.registers.get y) }

/-- Embeds `Emulator::set_vx_to_vx_or_vy` (8xy1). -/
def set_vx_to_vx_or_vy (s : Emulator) (x y : Nat) : Emulator :=
  { s with registers := s.registers.set x (s.registers.get x ||| s.registers.get y) }

/-- Embeds `Emulator::set_vx_to_vx_and_vy` (8xy2). -/
def set_vx_to_vx_and_vy (s : Emulator) (x y : Nat) : Emulator :=
  { s with registers := s.registers.set x (s.registers.get x &&& s.registers.get y) }

/-- Embeds `Emulator::set_vx_to_vx_xor_vy` (8xy3). -/
def set_vx_to_vx_xor_vy (s : Emulator) (x y : Nat) : Emulator :=
  { s with registers := s.registers.set x (s.registers.get x ^^^ s.registers.get y) }

/-- Embeds `Emulator::add_vy_to_vx` (8xy4): `u8::overflowing_add`; the sum wraps
modulo 256 and VF records the carry. -/
def add_vy_to_vx (s : Emulator) (x y : Nat) : Emulator :=
  let vx := s.registers.get x
  let vy := s.registers.get y
  let s := { s with registers := s.registers.set x ((vx + vy) % 256) }
  { s with registers := s.registers.set 15 (if 256 ≤ vx + vy then 1 else 0) }

/-- Embeds `Emulator::subtract_vy_from_vx` (8xy5): `u8::overflowing_sub`; the
wrapped difference of `u8` values `a, b < 256` is `(256 + a - b) % 256`,
and VF is 1 exactly when no borrow occurred (`vy ≤ vx`). -/
def subtract_vy_from_vx (s : Emulator) (x y : Nat) : Emulator :=
  let vx := s.registers.get x
  let vy := s.registers.get y
  let s := { s with registers := s.registers.set x ((256 + vx - vy) % 256) }
  { s with registers := s.registers.set 15 (if vy ≤ vx then 1 else 0) }

/-- Embeds `Emulator::set_vx_to_vy_shr_1` (8xy6): the shift source is `V[y]`:
`vf = registers[y] & 1; registers[x] = registers[y] >> 1;
registers[0xF] = vf`. -/
def set_vx_to_vy_shr_1 (s : Emulator) (x y : Nat) : Emulator :=
  let vf := s.registers.get y % 2
  let s := { s with registers := s.registers.set x (s.registers.get y / 2) }
  { s with registers := s.registers.set 15 vf }

/-- Embeds `Emulator::set_vx_to_vy_minus_vx` (8xy7): `u8::overflowing_sub` the
other way round. -/
def set_vx_to_vy_minus_vx (s : Emulator) (x y : Nat) : Emulator :=
  let vx := s.registers.get x
  let vy := s.registers.get y
  let s := { s with registers := s.registers.set x ((256 + vy - vx) % 256) }
  { s with registers := s.registers.set 15 (if vx ≤ vy then 1 else 0) }

/-- Embeds `Emulator::set_vx_to_vy_shl_1` (8xyE): the shift source is `V[y]`:
`vf = (registers[y] & 0x80) >> 7` (that is, `v / 128 % 2`), and the `u8`
left shift drops the high bit (`* 2 % 256`). -/
def set_vx_to_vy_shl_1 (s : Emulator) (x y : Nat) : Emulator :=
  let vf := s.registers.get y / 128 % 2
  let s := { s with registers := s.registers.set x (s.registers.get y * 2 % 256) }
  { s with registers := s.registers.set 15 vf }

/-- Embeds `Emulator::skip_if_vx_not_equal_vy` (9xy0). -/
def skip_if_vx_not_equal_vy (s : Emulator) (x y : Nat) : Emulator :=
  if s.registers.get x ≠ s.registers.get y then
    { s with program_counter := s.program_counter + 2 }
  else s

/-- Embeds `Emulator::store_nnn_in_i` (Annn). -/
def store_nnn_in_i (s : Emulator) (nnn : Nat) : Emulator :=
  { s with registers := { s.registers with i := nnn } }

/-- Embeds `Emulator::jump_to_nnn_plus_v0` (Bnnn): plain `usize` addition, no
masking. -/
def jump_to_nnn_plus_v0 (s : Emulator) (nnn : Nat) : Emulator :=
  { s with program_counter := nnn + s.registers.get 0 }

/-- Embeds `Emulator::set_vx_to_random_with_mask_nn` (Cxkk): the host random
byte ANDed with the mask. -/
def set_vx_to_random_with_mask_nn (inp : Input) (s : Emulator) (x nn : Nat) : Emulator :=
  { s with registers := s.registers.set x (inp.random_byte &&& nn) }

/-- Embeds `Window::xor_pixel`: flip pixel `(x, y)` of the row-major 64×32
buffer and return its prior value.  Callers pass coordinates already
reduced modulo the display size, so the index is in range. -/
def xor_pixel (s : Emulator) (x y : Nat) : Bool × Emulator :=
  let index := y * DISPLAY_WIDTH + x
  let was_set := s.buffer.getD index false
  (was_set, { s with buffer := s.buffer.set index (!was_set) })

/-- Inner column loop of `draw_sprite` (`for col in 0..8`), shared
verbatim by `main.rs` and `emulator.rs`: XOR each set sprite bit into the
buffer at `(vx + col) % 64` and set VF on collision
(`bit = (sprite_byte >> (7 - col)) & 1`). -/
def draw_row (vx y_pos sprite_byte : Nat) (s : Emulator) : Emulator :=
  (List.range 8).foldl
    (fun s col =>
      let x_pos := (vx + col) % DISPLAY_WIDTH
      let bit := sprite_byte / 2 ^ (7 - col) % 2
      if bit = 1 then
        let p := xor_pixel s x_pos y_pos
        if p.1 then
          { p.2 with registers := p.2.registers.set 15 1 }
        else p.2
      else s)
    s

/-- Outer row loop of `draw_sprite` (`for row in 0..n`), shared verbatim
by `main.rs` and `emulator.rs`: read `memory[i + row]` (a Rust index
panic when out of bounds) and draw it at row `(vy + row) % 32`.
Structural recursion on the number of remaining rows. -/
def draw_rows (vx vy i : Nat) : Nat → Nat → Emulator → Except ExecErr Emulator
  | 0, _, s => .ok s
  | rows_left + 1, row, s =>
      match s.memory.get? (i + row) with
      | none => .error .panic
      | some sprite_byte =>
          let y_pos := (vy + row) % DISPLAY_HEIGHT
          draw_rows vx vy i rows_left (row + 1) (draw_row vx y_pos sprite_byte s)

/-- Embeds `Emulator::draw_sprite` of `main.rs` (Dxyn).  Note that this variant
never writes 0 to VF: VF is only ever set to 1 on a collision. -/
def draw_sprite (s : Emulator) (x y n : Nat) : Except ExecErr Emulator :=
  let vx := s.registers.get x
  let vy := s.registers.get y
  let i := s.registers.i
  draw_rows vx vy i n 0 s

/-- Embeds `Emulator::skip_if_key_in_vx_down` (Ex9E). -/
def skip_if_key_in_vx_down (inp : Input) (s : Emulator) (x : Nat) : Emulator :=
  if inp.key_down (s.registers.get x) then
    { s with program_counter := s.program_counter + 2 }
  else s

/-- Embeds `Emulator::skip_if_key_in_vx_not_down` (ExA1). -/
def skip_if_key_in_vx_not_down (inp : Input) (s : Emulator) (x : Nat) : Emulator :=
  if inp.key_down (s.registers.get x) then s
  else { s with program_counter := s.program_counter + 2 }

/-- Embeds `Emulator::store_delay_timer_in_vx` (Fx07). -/
def store_delay_timer_in_vx (s : Emulator) (x : Nat) : Emulator :=
  { s with registers := s.registers.set x s.delay_timer }

/-- Embeds `Emulator::wait_for_key_and_store_in_vx` (Fx0A): store the host
pressed key if there is one, otherwise rewind the program counter by 2
(cancelling the post-fetch increment). -/
def wait_for_key_and_store_in_vx (inp : Input) (s : Emulator) (x : Nat) : Emulator :=
  match inp.pressed_key with
  | some key => { s with registers := s.registers.set x key }
  | none => { s with program_counter := s.program_counter - 2 }

/-- Embeds `Emulator::set_delay_timer_to_vx` (Fx15). -/
def set_delay_timer_to_vx (s : Emulator) (x : Nat) : Emulator :=
  { s with delay_timer := s.registers.get x }

/-- Embeds `Emulator::set_sound_timer_to_vx` (Fx18). -/
def set_sound_timer_to_vx (s : Emulator) (x : Nat) : Emulator :=
  { s with sound_timer := s.registers.get x }

/-- Embeds `Emulator::add_vx_to_i` (Fx1E): plain `usize` addition, no masking. -/
def add_vx_to_i (s : Emulator) (x : Nat) : Emulator :=
  { s with registers := { s.registers with i := s.registers.i + s.registers.get x } }

/-- Embeds `Emulator::set_i_to_addr_of_sprite_at_vx` (Fx29). -/
def set_i_to_addr_of_sprite_at_vx (s : Emulator) (x : Nat) : Emulator :=
  { s with registers := { s.registers with i := s.registers.get x * 5 } }

/-- One memory write `self.memory[addr] = v`; a Rust index panic
(`none`) when the address is out of bounds. -/
def write_mem (s : Emulator) (addr v : Nat) : Option Emulator :=
  if addr < s.memory.length then
    some { s with memory := s.memory.set addr v }
  else none

/-- Embeds `Emulator::store_binary_coded_decimal_of_vx_at_i` (Fx33). -/
def store_binary_coded_decimal_of_vx_at_i (s : Emulator) (x : Nat) : Except ExecErr Emulator :=
  let value := s.registers.get x
  let i := s.registers.i
  match write_mem s i (value / 100) with
  | none => .error .panic
  | some s =>
      match write_mem s (i + 1) (value % 100 / 10) with
      | none => .error .panic
      | some s =>
          match write_mem s (i + 2) (value % 10) with
          | none => .error .panic
          | some s => .ok s

/-- Loop body of Fx55 (`for offset in 0..=x`), structural recursion on
the number of remaining offsets. -/
def store_regs_loop (i : Nat) : Nat → Nat → Emulator → Except ExecErr Emulator
  | 0, _, s => .ok s
  | left + 1, offset, s =>
      match write_mem s (i + offset) (s.registers.get offset) with
      | none => .error .panic
      | some s => store_regs_loop i left (offset + 1) s

/-- Embeds `Emulator::store_v0_to_vx_in_memory_at_i` (Fx55): the range is
inclusive, `0..=x`, so `x + 1` offsets. -/
def store_v0_to_vx_in_memory_at_i (s : Emulator) (x : Nat) : Except ExecErr Emulator :=
  store_regs_loop s.registers.i (x + 1) 0 s

/-- Loop body of Fx65 (`for offset in 0..=x`). -/
def load_regs_loop (i : Nat) : Nat → Nat → Emulator → Except ExecErr Emulator
  | 0, _, s => .ok s
  | left + 1, offset, s =>
      match s.memory.get? (i + offset) with
      | none => .error .panic
      | some v =>
          load_regs_loop i left (offset + 1)
            { s with registers := s.registers.set offset v }

/-- Embeds `Emulator::load_v0_to_vx_from_memory_at_i` (Fx65). -/
def load_v0_to_vx_from_memory_at_i (s : Emulator) (x : Nat) : Except ExecErr Emulator :=
  load_regs_loop s.registers.i (x + 1) 0 s

/-- Embeds `Emulator::fetch_instruction`: read the big-endian opcode at the
program counter (`u16::from_be_bytes [hi, lo] = hi * 256 + lo`); a Rust
index panic (`none`) when the program counter leaves the buffer. -/
def fetch_opcode (s : Emulator) : Option Nat :=
  match s.memory.get? s.program_counter, s.memory.get? (s.program_counter + 1) with
  | some hi, some lo => some (hi * 256 + lo)
  | _, _ => none

/-- The dispatch of `Emulator::do_instruction` of `main.rs` over the
destructured fields (the Rust code destructures
`let Instruction { opcode, op, x, y, n, nn, nnn } = ...` into locals):
the big match with the arms in source order, applied to the state whose
program counter was already incremented by 2; an unmatched opcode is a
fatal `Unknown instruction` error. -/
def dispatch_fields (inp : Input) (opcode op x y n nn nnn : Nat)
    (s : Emulator) : Except ExecErr Emulator :=
    if op = 0x0 ∧ opcode = 0x00E0 then .ok (clear_screen s)
    else if op = 0x0 ∧ opcode = 0x00EE then return_from_subroutine s
    else if op = 0x1 then .ok (jump s nnn)
    else if op = 0x2 then .ok (call_subroutine s nnn)
    else if op = 0x3 then .ok (skip_if_vx_equal_nn s x nn)
    else if op = 0x4 then .ok (skip_if_vx_not_equal_nn s x nn)
    else if op = 0x5 then .ok (skip_if_vx_equal_vy s x y)
    else if op = 0x6 then .ok (store_nn_in_vx s x nn)
    else if op = 0x7 then .ok (add_nn_to_vx s x nn)
    else if op = 0x8 ∧ n = 0x0 then .ok (store_vy_in_vx s x y)
    else if op = 0x8 ∧ n = 0x1 then .ok (set_vx_to_vx_or_vy s x y)
    else if op = 0x8 ∧ n = 0x2 then .ok (set_vx_to_vx_and_vy s x y)
    else if op = 0x8 ∧ n = 0x3 then .ok (set_vx_to_vx_xor_vy s x y)
    else if op = 0x8 ∧ n = 0x4 then .ok (add_vy_to_vx s x y)
    else if op = 0x8 ∧ n = 0x5 then .ok (subtract_vy_from_vx s x y)
    else if op = 0x8 ∧ n = 0x6 then .ok (set_vx_to_vy_shr_1 s x y)
    else if op = 0x8 ∧ n = 0x7 then .ok (set_vx_to_vy_minus_vx s x y)
    else if op = 0x8 ∧ n = 0xE then .ok (set_vx_to_vy_shl_1 s x y)
    else if op = 0x9 ∧ n = 0x0 then .ok (skip_if_vx_not_equal_vy s x y)
    else if op = 0xA then .ok (store_nnn_in_i s nnn)
    else if op = 0xB then .ok (jump_to_nnn_plus_v0 s nnn)
    else if op = 0xC then .ok (set_vx_to_random_with_mask_nn inp s x nn)
    else if op = 0xD then draw_sprite s x y n
    else if op = 0xE ∧ nn = 0x9E then .ok (skip_if_key_in_vx_down inp s x)
    else if op = 0xE ∧ nn = 0xA1 then .ok (skip_if_key_in_vx_not_down inp s x)
    else if op = 0xF ∧ nn = 0x07 then .ok (store_delay_timer_in_vx s x)
    else if op = 0xF ∧ nn = 0x0A then .ok (wait_for_key_and_store_in_vx inp s x)
    else if op = 0xF ∧ nn = 0x15 then .ok (set_delay_timer_to_vx s x)
    else if op = 0xF ∧ nn = 0x18 then .ok (set_sound_timer_to_vx s x)
    else if op = 0xF ∧ nn = 0x1E then .ok (add_vx_to_i s x)
    else if op = 0xF ∧ nn = 0x29 then .ok (set_i_to_addr_of_sprite_at_vx s x)
    else if op = 0xF ∧ nn = 0x33 then store_binary_coded_decimal_of_vx_at_i s x
    else if op = 0xF ∧ nn = 0x55 then store_v0_to_vx_in_memory_at_i s x
    else if op = 0xF ∧ nn = 0x65 then load_v0_to_vx_from_memory_at_i s x
    else .error (.unknown_instruction opcode)

/-- Applies `dispatch_fields` to the decoded fields of the fetched
opcode. -/
def dispatch (inp : Input) (opcode : Nat) (s : Emulator) : Except ExecErr Emulator :=
  dispatch_fields inp opcode
    (Instruction.from_opcode opcode).op (Instruction.from_opcode opcode).x
    (Instruction.from_opcode opcode).y (Instruction.from_opcode opcode).n
    (Instruction.from_opcode opcode).nn (Instruction.from_opcode opcode).nnn s

/-- Embeds `Emulator::do_instruction` of `main.rs`: fetch, increment the
program counter by 2, then `dispatch` on the decoded fields. -/
def do_instruction (inp : Input) (s : Emulator) : Except ExecErr Emulator :=
  match fetch_opcode s with
  | none => .error .panic
  | some opcode =>
      dispatch inp opcode { s with program_counter := s.program_counter + 2 }

/-- Embeds `Emulator::update_timers` of `main.rs`: returns `true` (and
decrements each positive timer) when either timer is non-zero at entry. -/
def update_timers (s : Emulator) : Bool × Emulator :=
  if s.delay_timer = 0 ∧ s.sound_timer = 0 then
    (false, s)
  else
    (true,
      { s with
        delay_timer := if 0 < s.delay_timer then s.delay_timer - 1 else s.delay_timer
        sound_timer := if 0 < s.sound_timer then s.sound_timer - 1 else s.sound_timer })

/-- Embeds `Emulator::do_cycle` of `main.rs`: tick the timers first and return
early — executing no instruction this cycle — whenever a timer was
non-zero at entry. -/
def do_cycle (inp : Input) (s : Emulator) : Except ExecErr Emulator :=
  let p := update_timers s
  if p.1 then .ok p.2 else do_instruction inp p.2

/-- Iterated `do_cycle` with a fixed host input (the inner loop of
`Emulator::run` executes `CYCLES_PER_FRAME = 11` of these per frame). -/
def run_cycles (inp : Input) : Nat → Emulator → Except ExecErr Emulator
  | 0, s => .ok s
  | n + 1, s =>
      match do_cycle inp s with
      | .ok s' => run_cycles inp n s'
      | .error e => .error e

/-- Host inputs the driver considers valid: the window backend hands the
core `u8` key codes. -/
def ValidInput (inp : Input) : Prop :=
  ∀ k, inp.pressed_key = some k → k < 256

/-- States reachable from the machine `s0` by driver cycles under
arbitrary valid host inputs. -/
inductive Reach (s0 : Emulator) : Emulator → Prop where
  | init : Reach s0 s0
  | step {s s' : Emulator} {inp : Input} :
      Reach s0 s → ValidInput inp → do_cycle inp s = .ok s' → Reach s0 s'

/-- A byte list: every entry fits in a `u8`. -/
def WfBytes (l : List Nat) : Prop := ∀ v ∈ l, v < 256

/-- Well-formedness corresponding to the Rust types: the register file,
the memory bytes, and both timers are `u8` values. -/
def Wf (s : Emulator) : Prop :=
  WfBytes s.registers.data ∧ WfBytes s.memory ∧
    s.delay_timer < 256 ∧ s.sound_timer < 256

end Chip8Main

namespace Chip8Emu

open Chip8Main

/-- Embeds `Emulator::draw_sprite` of `emulator.rs` (Dxyn).  Identical to the
`main.rs` variant except that it resets VF to 0 after reading `V[x]`,
`V[y]` and `I` and before the row loop.  The row/column loops are
byte-for-byte the same in the two files, so they are shared
(`Chip8Main.draw_rows`). -/
def draw_sprite (s : Emulator) (x y n : Nat) : Except ExecErr Emulator :=
  let vx := s.registers.get x
  let vy := s.registers.get y
  let i := s.registers.i
  let s := { s with registers := s.registers.set 15 0 }
  draw_rows vx vy i n 0 s

end Chip8Emu

namespace Instrs

/-- The tagged instruction type of `instructions.rs` (`enum
Instruction`).  Note it has a `Nop` variant, a single `LdDt` variant
(used for both Fx07 and Fx15) and no variant for `V[x] ← DT`. -/
inductive Instruction where
  | nop
  | jp (addr : Nat)
  | jpV0 (addr : Nat)
  | call (addr : Nat)
  | ret
  | seVxByte (x byte : Nat)
  | sneVxByte (x byte : Nat)
  | seVxVy (x y : Nat)
  | sneVxVy (x y : Nat)
  | skp (x : Nat)
  | sknp (x : Nat)
  | ldVxByte (x byte : Nat)
  | ldVxVy (x y : Nat)
  | ldIAddr (addr : Nat)
  | ldK (x : Nat)
  | ldDt (x : Nat)
  | ldSt (x : Nat)
  | ldF (x : Nat)
  | ldB (x : Nat)
  | ldI (x : Nat)
  | ldIVx (x : Nat)
  | rnd (x byte : Nat)
  | addVxByte (x byte : Nat)
  | addVxVy (x y : Nat)
  | addI (x : Nat)
  | sub (x y : Nat)
  | subn (x y : Nat)
  | and (x y : Nat)
  | or (x y : Nat)
  | xor (x y : Nat)
  | shr (x : Nat)
  | shl (x : Nat)
  | cls
  | drw (x y nibble : Nat)
  deriving Repr, DecidableEq

/-- Embeds `Instruction::from_opcode` of `instructions.rs`: the match arms in
source order on `op & 0xF000` (embedded as `op / 4096`, with the guard
values compared against the shifted nibble), with field extraction by
the equivalent `/`/`%` arithmetic; an unmatched opcode is an error. -/
def from_opcode (op : Nat) : Except String Instruction :=
  let x := op / 256 % 16
  let y := op / 16 % 16
  let byte := op % 256
  let addr := op % 4096
  let e := op % 16
  if op / 4096 = 0x0 ∧ op = 0x0000 then .ok .nop
  else if op / 4096 = 0x1 then .ok (.jp addr)
  else if op / 4096 = 0xB then .ok (.jpV0 addr)
  else if op / 4096 = 0x2 then .ok (.call addr)
  else if op / 4096 = 0x0 ∧ op = 0x00EE then .ok .ret
  else if op / 4096 = 0x3 then .ok (.seVxByte x byte)
  else if op / 4096 = 0x4 then .ok (.sneVxByte x byte)
  else if op / 4096 = 0x5 then .ok (.seVxVy x y)
  else if op / 4096 = 0x9 then .ok (.sneVxVy x y)
  else if op / 4096 = 0xE ∧ byte = 0x9E then .ok (.skp x)
  else if op / 4096 = 0xE ∧ byte = 0xA1 then .ok (.sknp x)
  else if op / 4096 = 0x6 then .ok (.ldVxByte x byte)
  else if op / 4096 = 0x8 ∧ e = 0 then .ok (.ldVxVy x y)
  else if op / 4096 = 0xA then .ok (.ldIAddr addr)
  else if op / 4096 = 0xF ∧ byte = 0x07 then .ok (.ldDt x)
  else if op / 4096 = 0xF ∧ byte = 0x0A then .ok (.ldK x)
  else if op / 4096 = 0xF ∧ byte = 0x15 then .ok (.ldDt x)
  else if op / 4096 = 0xF ∧ byte = 0x18 then .ok (.ldSt x)
  else if op / 4096 = 0xF ∧ byte = 0x1E then .ok (.addI x)
  else if op / 4096 = 0xF ∧ byte = 0x29 then .ok (.ldF x)
  else if op / 4096 = 0xF ∧ byte = 0x33 then .ok (.ldB x)
  else if op / 4096 = 0xF ∧ byte = 0x55 then .ok (.ldI x)
  else if op / 4096 = 0xF ∧ byte = 0x65 then .ok (.ldIVx x)
  else if op / 4096 = 0xC then .ok (.rnd x byte)
  else if op / 4096 = 0x8 ∧ e = 1 then .ok (.or x y)
  else if op / 4096 = 0x8 ∧ e = 2 then .ok (.and x y)
  else if op / 4096 = 0x8 ∧ e = 3 then .ok (.xor x y)
  else if op / 4096 = 0x8 ∧ e = 6 then .ok (.shr x)
  else if op / 4096 = 0x8 ∧ e = 0xE then .ok (.shl x)
  else if op / 4096 = 0x7 then .ok (.addVxByte x byte)
  else if op / 4096 = 0x8 ∧ e = 4 then .ok (.addVxVy x y)
  else if op / 4096 = 0x8 ∧ e = 5 then .ok (.sub x y)
  else if op / 4096 = 0x8 ∧ e = 7 then .ok (.subn x y)
  else if op / 4096 = 0xD then .ok (.drw x y e)
  else if op / 4096 = 0x0 ∧ op = 0x00E0 then .ok .cls
  else .error "Unknown instruction"

end Instrs

namespace InstrMod

/-- The instruction type of `instruction.rs` (`enum Instruction`), which
does distinguish `LdVxDt` (Fx07) from `LdDtVx` (Fx15). -/
inductive Instruction where
  | cls
  | ret
  | jp (addr : Nat)
  | call (addr : Nat)
  | seVxByte (vx byte : Nat)
  | sneVxByte (vx byte : Nat)
  | seVxVy (vx vy : Nat)
  | ldVxByte (vx byte : Nat)
  | addVxByte (vx byte : Nat)
  | ldVxVy (vx vy : Nat)
  | orVxVy (vx vy : Nat)
  | andVxVy (vx vy : Nat)
  | xorVxVy (vx vy : Nat)
  | addVxVy (vx vy : Nat)
  | subVxVy (vx vy : Nat)
  | shrVx (vx : Nat)
  | subnVxVy (vx vy : Nat)
  | shlVx (vx : Nat)
  | sneVxVy (vx vy : Nat)
  | ldIAddr (addr : Nat)
  | jpV0Addr (addr : Nat)
  | rnd (vx byte : Nat)
  | drw (vx vy nibble : Nat)
  | skpVx (vx : Nat)
  | sknpVx (vx : Nat)
  | ldVxDt (vx : Nat)
  | ldVxK (vx : Nat)
  | ldDtVx (vx : Nat)
  | ldStVx (vx : Nat)
  | addIVx (vx : Nat)
  | ldFVx (vx : Nat)
  | ldBVx (vx : Nat)
  | ldIVx (vx : Nat)
  | ldVxI (vx : Nat)
  deriving Repr, DecidableEq

/-- One iteration of the loop body of `parse_instructions` in
`instruction.rs`: the match in source order; the `continue` arm is
`none`. -/
def parse_one (op : Nat) : Option Instruction :=
  let vx := op / 256 % 16
  let vy := op / 16 % 16
  let byte := op % 256
  let addr := op % 4096
  let e := op % 16
  if op / 4096 = 0x0 ∧ op = 0x00E0 then some .cls
  else if op / 4096 = 0x0 ∧ op = 0x00EE then some .ret
  else if op / 4096 = 0x1 then some (.jp addr)
  else if op / 4096 = 0x2 then some (.call addr)
  else if op / 4096 = 0x3 then some (.seVxByte vx byte)
  else if op / 4096 = 0x4 then some (.sneVxByte vx byte)
  else if op / 4096 = 0x5 then some (.seVxVy vx vy)
  else if op / 4096 = 0x6 then some (.ldVxByte vx byte)
  else if op / 4096 = 0x7 then some (.addVxByte vx byte)
  else if op / 4096 = 0x8 ∧ e = 0 then some (.ldVxVy vx vy)
  else if op / 4096 = 0x8 ∧ e = 1 then some (.orVxVy vx vy)
  else if op / 4096 = 0x8 ∧ e = 2 then some (.andVxVy vx vy)
  else if op / 4096 = 0x8 ∧ e = 3 then some (.xorVxVy vx vy)
  else if op / 4096 = 0x8 ∧ e = 4 then some (.addVxVy vx vy)
  else if op / 4096 = 0x8 ∧ e = 5 then some (.subVxVy vx vy)
  else if op / 4096 = 0x8 ∧ e = 6 then some (.shrVx vx)
  else if op / 4096 = 0x8 ∧ e = 7 then some (.subnVxVy vx vy)
  else if op / 4096 = 0x8 ∧ e = 0xE then some (.shlVx vx)
  else if op / 4096 = 0x9 then some (.sneVxVy vx vy)
  else if op / 4096 = 0xA then some (.ldIAddr addr)
  else if op / 4096 = 0xB then some (.jp addr)
  else if op / 4096 = 0xC then some (.rnd vx byte)
  else if op / 4096 = 0xD then some (.drw vx vy e)
  else if op / 4096 = 0xE ∧ byte = 0x9E then some (.skpVx vx)
  else if op / 4096 = 0xE ∧ byte = 0xA1 then some (.sknpVx vx)
  else if op / 4096 = 0xF ∧ byte = 0x07 then some (.ldVxDt vx)
  else if op / 4096 = 0xF ∧ byte = 0x0A then some (.ldVxK vx)
  else if op / 4096 = 0xF ∧ byte = 0x15 then some (.ldDtVx vx)
  else if op / 4096 = 0xF ∧ byte = 0x18 then some (.ldStVx vx)
  else if op / 4096 = 0xF ∧ byte = 0x1E then some (.addIVx vx)
  else if op / 4096 = 0xF ∧ byte = 0x29 then some (.ldFVx vx)
  else if op / 4096 = 0xF ∧ byte = 0x33 then some (.ldBVx vx)
  else if op / 4096 = 0xF ∧ byte = 0x55 then some (.ldIVx vx)
  else if op / 4096 = 0xF ∧ byte = 0x65 then some (.ldVxI vx)
  else none

/-- Embeds `parse_instructions` of `instruction.rs`: decode each opcode in
order, and silently `continue` past any unmatched opcode. -/
def parse_instructions : List Nat → List Instruction
  | [] => []
  | op :: rest =>
      match parse_one op with
      | some instruction => instruction :: parse_instructions rest
      | none => parse_instructions rest

end InstrMod

namespace MemoryMod

/-- Embeds `MEMORY_SIZE` of `memory.rs` (note: `0xFFF = 4095`). -/
def MEMORY_SIZE : Nat := 0xFFF

/-- Embeds `MEMORY_PROGRAM_START` of `memory.rs`. -/
def MEMORY_PROGRAM_START : Nat := 0x200

/-- Embeds `MEMORY_PROGRAM_SIZE = MEMORY_SIZE - MEMORY_PROGRAM_START` of
`memory.rs` (`0xDFF = 3583`). -/
def MEMORY_PROGRAM_SIZE : Nat := MEMORY_SIZE - MEMORY_PROGRAM_START

/-- The `Memory` struct of `memory.rs`: the byte buffer and the
`program_len` bookkeeping field. -/
structure Memory where
  memory : List Nat
  program_len : Nat
  deriving Repr, DecidableEq

/-- Embeds `Memory::new` of `memory.rs`: a zeroed `MEMORY_SIZE`-byte buffer
preloaded with the fontset, and `program_len = 0`. -/
def Memory.new : Memory :=
  { memory := Chip8Main.FONTSET ++
      List.replicate (MEMORY_SIZE - Chip8Main.FONTSET_SIZE) 0
    program_len := 0 }

/-- Embeds `Memory::load_program` of `memory.rs`: bail with an error (leaving
`self` untouched) when the program exceeds `MEMORY_PROGRAM_SIZE`,
otherwise record the length and copy the bytes to `0x200..`.  The
`&mut self`/`Result<()>` signature is embedded as a pair of the returned
`Result` and the post-call state. -/
def Memory.load_program (m : Memory) (program : List Nat) :
    Except String Unit × Memory :=
  if MEMORY_PROGRAM_SIZE < program.length then
    (.error "Program cannot fit in memory", m)
  else
    (.ok (),
      { memory := Chip8Main.splice_at MEMORY_PROGRAM_START program m.memory
        program_len := program.length })

/-- The `Index` impl of `memory.rs` (`read`): `&self.memory[index]`,
with a Rust panic (`none`) out of bounds.  (The sub-0x200 branch only
logs a warning.) -/
def Memory.read (m : Memory) (index : Nat) : Option Nat :=
  m.memory.get? index

/-- The `IndexMut` impl of `memory.rs` (`write`): `self.memory[index] = v`,
with a Rust panic (`none`) out of bounds. -/
def Memory.write (m : Memory) (index v : Nat) : Option Memory :=
  if index < m.memory.length then
    some { m with memory := m.memory.set index v }
  else none

end MemoryMod

namespace StackMod

/-- Embeds `STACK_SIZE` of `stack.rs`. -/
def STACK_SIZE : Nat := 16

/-- The bounded call stack of `stack.rs`: a fixed 16-slot array and a
stack pointer. -/
structure Stack where
  stack : List Nat
  pointer : Nat
  deriving Repr, DecidableEq

/-- Embeds `Stack::new` of `stack.rs`. -/
def Stack.new : Stack := { stack := List.replicate STACK_SIZE 0, pointer := 0 }

/-- Embeds `Stack::push` of `stack.rs`: a stack-overflow error (with `self`
unchanged) when the pointer has reached `STACK_SIZE`, otherwise store at
the pointer and increment it.  Embedded, like `Memory::load_program`, as
a result/state pair. -/
def Stack.push (st : Stack) (address : Nat) : Except String Unit × Stack :=
  if STACK_SIZE ≤ st.pointer then
    (.error "Stack overflow", st)
  else
    (.ok (), { stack := st.stack.set st.pointer address, pointer := st.pointer + 1 })

/-- Embeds `Stack::pop` of `stack.rs`: a stack-underflow error when the pointer
is zero, otherwise decrement the pointer and return the popped slot. -/
def Stack.pop (st : Stack) : Except String Nat × Stack :=
  if st.pointer = 0 then
    (.error "Stack underflow", st)
  else
    (.ok (st.stack.getD (st.pointer - 1) 0), { st with pointer := st.pointer - 1 })

end StackMod

namespace Chip8Main

/-- Host input with no key activity and a zero random byte. -/
def quiet_input : Input :=
  { pressed_key := none, key_down := fun _ => false, random_byte := 0 }

/-- Projection: the value of register `V[k]` of an execution result. -/
def v_of (k : Nat) : Except ExecErr Emulator → Option Nat
  | .ok s => some (s.registers.get k)
  | .error _ => none

/-- Projection: the program counter of an execution result. -/
def pc_of : Except ExecErr Emulator → Option Nat
  | .ok s => some s.program_counter
  | .error _ => none

/-- Projection: the delay timer of an execution result. -/
def dt_of : Except ExecErr Emulator → Option Nat
  | .ok s => some s.delay_timer
  | .error _ => none

/-- Projection: the index register of an execution result. -/
def i_of : Except ExecErr Emulator → Option Nat
  | .ok s => some s.registers.i
  | .error _ => none

/-- Projection: the call-stack depth of an execution result. -/
def depth_of : Except ExecErr Emulator → Option Nat
  | .ok s => some s.call_stack.length
  | .error _ => none

/-- Projection: whether an execution result is an error. -/
def is_err : Except ExecErr Emulator → Bool
  | .ok _ => false
  | .error _ => true

/-- The machine produced by `Emulator::new` + `load_program_file` for a
program that fits (the successful branch of `init_machine`, without the
slice-bound guard). -/
def machine0 (p : List Nat) : Emulator :=
  { memory := splice_at MEMORY_PROGRAM_START p memory_new
    registers := Registers.new
    call_stack := []
    buffer := List.replicate (DISPLAY_WIDTH * DISPLAY_HEIGHT) false
    program_counter := MEMORY_PROGRAM_START
    delay_timer := 0
    sound_timer := 0 }

end Chip8Main

namespace Instrs

/-- Projection: the successful result of `from_opcode`, `none` on a
decode error. -/
def decode_result (op : Nat) : Option Instruction :=
  (from_opcode op).toOption

end Instrs

/-! ## Shared lemmas -/

namespace Chip8Main

/-- The fresh memory buffer has exactly `MEMORY_SIZE` bytes. -/
theorem memory_new_length : memory_new.length = MEMORY_SIZE := by
  rw [memory_new, List.length_append, List.length_replicate, FONTSET]
  rfl

/-- Loading a program that fits succeeds and yields `machine0`. -/
theorem init_machine_eq (p : List Nat)
    (h : MEMORY_PROGRAM_START + p.length ≤ MEMORY_SIZE) :
    init_machine p = some (machine0 p) := by
  simp [init_machine, load_program_bytes, memory_new_length, h, machine0]

/-- The no-activity host input is valid. -/
theorem valid_quiet_input : ValidInput quiet_input := by
  intro k hk
  simp [quiet_input] at hk

/-- The fresh `memory.rs` buffer also has exactly `MEMORY_SIZE` bytes. -/
theorem memory_mod_new_length :
    MemoryMod.Memory.new.memory.length = MemoryMod.MEMORY_SIZE := by
  rw [MemoryMod.Memory.new, List.length_append, List.length_replicate, FONTSET]
  rfl

/-- Successful iterated cycles preserve reachability. -/
theorem reach_of_run_cycles {s0 : Emulator} {inp : Input} (hv : ValidInput inp) :
    ∀ (n : Nat) (s s' : Emulator),
      Reach s0 s → run_cycles inp n s = .ok s' → Reach s0 s' := by
  intro n
  induction n with
  | zero =>
      intro s s' hr h
      simp only [run_cycles] at h
      cases h
      exact hr
  | succ n ih =>
      intro s s' hr h
      simp only [run_cycles] at h
      cases hc : do_cycle inp s with
      | ok s1 =>
          rw [hc] at h
          exact ih s1 s' (Reach.step hr hv hc) h
      | error e =>
          rw [hc] at h
          cases h

end Chip8Main

open Chip8Main in
/-- C1: on a collision-free DRW (sprite byte 0xF0 from the font at
`I = 0`, drawn onto a blank screen) from a state with a stale `VF = 1`,
the `main.rs` executor leaves `VF = 1` — it never performs the initial
`VF ← 0` — while the `emulator.rs` draw routine, which does reset VF,
ends with `VF = 0` as the claim requires. -/
theorem c1_main_draw_keeps_stale_vf :
    v_of 15 (do_instruction quiet_input
        { machine0 [0xD0, 0x11] with registers := Registers.new.set 15 1 }) =
      some 1 ∧
    v_of 15 (Chip8Emu.draw_sprite
        { machine0 [0xD0, 0x11] with registers := Registers.new.set 15 1 } 0 1 1) =
      some 0 := by
  decide

open Chip8Main in
/-- C2: the `main.rs` driver ticks timers inside `do_cycle` and skips
the instruction of any cycle whose timers were non-zero at entry.  The
program sets `V0 ← 2`, `DT ← 2` (two cycles), and then performs eleven
`V0 ← 0` instructions.  Over the following 11-cycle frame the delay
timer falls from 2 to 0 (two decrements in one frame, where the claim
says exactly one per frame) and the program counter advances by only
`9 × 2 = 18` bytes (two of the eleven cycles executed no instruction,
where the claim says every cycle executes one). -/
theorem c2_timer_tick_skips_cycles :
    dt_of (run_cycles quiet_input 2
        (machine0 ([0x60, 0x02, 0xF0, 0x15] ++ List.flatten (List.replicate 11 [0x60, 0x00])))) =
      some 2 ∧
    pc_of (run_cycles quiet_input 2
        (machine0 ([0x60, 0x02, 0xF0, 0x15] ++ List.flatten (List.replicate 11 [0x60, 0x00])))) =
      some 0x204 ∧
    dt_of (run_cycles quiet_input 13
        (machine0 ([0x60, 0x02, 0xF0, 0x15] ++ List.flatten (List.replicate 11 [0x60, 0x00])))) =
      some 0 ∧
    pc_of (run_cycles quiet_input 13
        (machine0 ([0x60, 0x02, 0xF0, 0x15] ++ List.flatten (List.replicate 11 [0x60, 0x00])))) =
      some 0x216 := by
  decide

/-- C4: `memory.rs` (and `main.rs`) declare `MEMORY_SIZE = 0xFFF = 4095`
rather than 4096: the freshly constructed memory rejects address `0xFFF`
(a Rust index panic on read and on write) while `0xFFE` is in bounds, so
memory is not "exactly 4096 bytes addressed 0x000..0xFFF". -/
theorem c4_memory_misses_address_fff :
    MemoryMod.MEMORY_SIZE = 4095 ∧
    MemoryMod.Memory.new.read 0xFFF = none ∧
    (MemoryMod.Memory.new.read 0xFFE).isSome = true ∧
    MemoryMod.Memory.new.write 0xFFF 0 = none ∧
    (MemoryMod.Memory.new.write 0xFFE 7).isSome = true := by
  refine ⟨rfl, by decide, by decide, ?_, ?_⟩
  · rw [MemoryMod.Memory.write, Chip8Main.memory_mod_new_length]
    norm_num [MemoryMod.MEMORY_SIZE]
  · rw [MemoryMod.Memory.write, Chip8Main.memory_mod_new_length]
    norm_num [MemoryMod.MEMORY_SIZE]

open Chip8Main in
/-- C6: the `instructions.rs` decoder maps both `0xFx07` and `0xFx15`
to the same `LdDt` variant (`DT ← V[x]`); there is no distinct
`V[x] ← DT` instruction in that decoder.  The live `main.rs` executor,
in contrast, performs the two distinct transfers (`V1 ← DT` for 0xF107,
`DT ← V1` for 0xF115). -/
theorem c6_decoder_conflates_fx07_fx15 :
    Instrs.decode_result 0xF107 = some (.ldDt 1) ∧
    Instrs.decode_result 0xF115 = some (.ldDt 1) ∧
    v_of 1 (do_instruction quiet_input
        { machine0 [0xF1, 0x07] with delay_timer := 7 }) = some 7 ∧
    dt_of (do_instruction quiet_input
        { machine0 [0xF1, 0x15] with
            registers := Registers.new.set 1 3, delay_timer := 9 }) = some 3 := by
  decide

open Chip8Main in
/-- C3 (counterexample): three states reachable from freshly loaded
machines violate the claimed bounds.  `V0 ← 0xFF; I ← 0xFFF; I ← I + V0`
drives the index register to `0x10FE > 0xFFF`; `V0 ← 2; JP V0, 0xFFF`
drives the program counter to `0x1001 > 0xFFF`; seventeen recursive
`CALL 0x200` instructions drive the `Vec`-backed call stack to depth
`17 > 16`. -/
theorem c3_reachable_bounds_violated :
    (∃ s, Reach (machine0 [0x60, 0xFF, 0xAF, 0xFF, 0xF0, 0x1E]) s ∧
      0xFFF < s.registers.i) ∧
    (∃ s, Reach (machine0 [0x60, 0x02, 0xBF, 0xFF]) s ∧
      0xFFF < s.program_counter) ∧
    (∃ s, Reach (machine0 [0x22, 0x00]) s ∧ 16 < s.call_stack.length) := by
  refine ⟨?_, ?_, ?_⟩
  · cases h : run_cycles quiet_input 3 (machine0 [0x60, 0xFF, 0xAF, 0xFF, 0xF0, 0x1E]) with
    | error e =>
        have hi : i_of (run_cycles quiet_input 3
            (machine0 [0x60, 0xFF, 0xAF, 0xFF, 0xF0, 0x1E])) = some 0x10FE := by decide
        rw [h] at hi
        simp [i_of] at hi
    | ok s =>
        have hi : i_of (run_cycles quiet_input 3
            (machine0 [0x60, 0xFF, 0xAF, 0xFF, 0xF0, 0x1E])) = some 0x10FE := by decide
        rw [h] at hi
        simp only [i_of, Option.some.injEq] at hi
        exact ⟨s, reach_of_run_cycles valid_quiet_input 3 _ _ Reach.init h, by omega⟩
  · cases h : run_cycles quiet_input 2 (machine0 [0x60, 0x02, 0xBF, 0xFF]) with
    | error e =>
        have hp : pc_of (run_cycles quiet_input 2
            (machine0 [0x60, 0x02, 0xBF, 0xFF])) = some 0x1001 := by decide
        rw [h] at hp
        simp [pc_of] at hp
    | ok s =>
        have hp : pc_of (run_cycles quiet_input 2
            (machine0 [0x60, 0x02, 0xBF, 0xFF])) = some 0x1001 := by decide
        rw [h] at hp
        simp only [pc_of, Option.some.injEq] at hp
        exact ⟨s, reach_of_run_cycles valid_quiet_input 2 _ _ Reach.init h, by omega⟩
  · cases h : run_cycles quiet_input 17 (machine0 [0x22, 0x00]) with
    | error e =>
        have hd : depth_of (run_cycles quiet_input 17
            (machine0 [0x22, 0x00])) = some 17 := by decide
        rw [h] at hd
        simp [depth_of] at hd
    | ok s =>
        have hd : depth_of (run_cycles quiet_input 17
            (machine0 [0x22, 0x00])) = some 17 := by decide
        rw [h] at hd
        simp only [depth_of, Option.some.injEq] at hd
        exact ⟨s, reach_of_run_cycles valid_quiet_input 17 _ _ Reach.init h, by omega⟩

open Chip8Main in
/-- C10: executing Fx0A with no reported key leaves the whole machine
state exactly as it was before the fetch (the `PC -= 2` cancels the
post-fetch `PC += 2`); with a reported key `k`, the only changes are
`V[x] ← k` and PC advancing by 2. -/
theorem c10_wait_for_key_frame_effect :
    ∀ (s : Emulator) (inp : Input) (op : Nat),
      fetch_opcode s = some op →
      op / 4096 = 0xF →
      op % 256 = 0x0A →
      (inp.pressed_key = none → do_instruction inp s = .ok s) ∧
      (∀ k, inp.pressed_key = some k →
        do_instruction inp s = .ok
          { s with registers := s.registers.set (op / 256 % 16) k
                   program_counter := s.program_counter + 2 }) := by
  intro s inp op hf h1 h2
  constructor
  · intro hk
    simp [do_instruction, dispatch, dispatch_fields, hf, Instruction.from_opcode, h1, h2,
      wait_for_key_and_store_in_vx, hk]
  · intro k hk
    simp [do_instruction, dispatch, dispatch_fields, hf, Instruction.from_opcode, h1, h2,
      wait_for_key_and_store_in_vx, hk]

open Chip8Main in
/-- C10 (witness): on the machine loaded with `[0xF3, 0x0A]`, executing
with no key reported returns the state unchanged, and executing with key
5 reported writes `V3 ← 5` and advances PC by 2. -/
theorem c10_wait_for_key_frame_effect_witness :
    do_instruction quiet_input (machine0 [0xF3, 0x0A]) = .ok (machine0 [0xF3, 0x0A]) ∧
    do_instruction { quiet_input with pressed_key := some 5 } (machine0 [0xF3, 0x0A]) =
      .ok { machine0 [0xF3, 0x0A] with
              registers := (machine0 [0xF3, 0x0A]).registers.set 3 5
              program_counter := (machine0 [0xF3, 0x0A]).program_counter + 2 } := by
  constructor
  · exact (c10_wait_for_key_frame_effect (machine0 [0xF3, 0x0A]) quiet_input 0xF30A
      (by decide) (by decide) (by decide)).1 rfl
  · exact (c10_wait_for_key_frame_effect (machine0 [0xF3, 0x0A])
      { quiet_input with pressed_key := some 5 } 0xF30A
      (by decide) (by decide) (by decide)).2 5 rfl

namespace Chip8Main

/-- Reading a just-written register slot (in bounds) yields the value. -/
theorem list_getD_set_self :
    ∀ (l : List Nat) (k v : Nat), k < l.length → (l.set k v).getD k 0 = v
  | [], k, _, h => absurd h (by simp)
  | _ :: _, 0, _, _ => rfl
  | _ :: l, k + 1, v, h => list_getD_set_self l k v (by simpa using h)

/-- Writing one register slot leaves the others unchanged. -/
theorem list_getD_set_ne :
    ∀ (l : List Nat) (k j v : Nat), j ≠ k → (l.set k v).getD j 0 = l.getD j 0
  | [], _, _, _, _ => by simp
  | _ :: _, 0, 0, _, h => absurd rfl h
  | _ :: _, 0, _ + 1, _, _ => rfl
  | _ :: _, _ + 1, 0, _, _ => rfl
  | _ :: l, k + 1, j + 1, v, h =>
      list_getD_set_ne l k j v (fun hh => h (by omega))

/-- Embeds `Registers` version of `list_getD_set_self`. -/
theorem Registers.get_set_self (r : Registers) (k v : Nat)
    (h : k < r.data.length) : (r.set k v).get k = v :=
  list_getD_set_self r.data k v h

/-- Embeds `Registers` version of `list_getD_set_ne`. -/
theorem Registers.get_set_ne (r : Registers) (k j v : Nat)
    (h : j ≠ k) : (r.set k v).get j = r.get j :=
  list_getD_set_ne r.data k j v h

end Chip8Main

open Chip8Main in
/-- C5 (amended): in `main.rs`, executing 8xy6 sets VF to the pre-operation
least-significant bit of `V[y]` and sets `V[x]` to `V[y] >> 1`, and
executing 8xyE sets VF to the pre-operation most-significant bit of
`V[y]` and sets `V[x]` to `V[y] << 1` — the shift source is `V[y]`, not
`V[x]` in place (when `x = 15` the final VF write prevails). -/
theorem c5_shift_source_is_vy :
    ∀ (s : Emulator) (inp : Input) (op : Nat),
      fetch_opcode s = some op →
      op / 4096 = 0x8 →
      s.registers.data.length = 16 →
      ((op % 16 = 0x6 →
        ∃ s', do_instruction inp s = .ok s' ∧
          s'.registers.get 15 = s.registers.get (op / 16 % 16) % 2 ∧
          (op / 256 % 16 ≠ 15 →
            s'.registers.get (op / 256 % 16) = s.registers.get (op / 16 % 16) / 2) ∧
          (∀ j, j ≠ op / 256 % 16 → j ≠ 15 →
            s'.registers.get j = s.registers.get j)) ∧
       (op % 16 = 0xE →
        ∃ s', do_instruction inp s = .ok s' ∧
          s'.registers.get 15 = s.registers.get (op / 16 % 16) / 128 % 2 ∧
          (op / 256 % 16 ≠ 15 →
            s'.registers.get (op / 256 % 16) =
              s.registers.get (op / 16 % 16) * 2 % 256) ∧
          (∀ j, j ≠ op / 256 % 16 → j ≠ 15 →
            s'.registers.get j = s.registers.get j))) := by
  intro s inp op hf h8 hlen
  constructor
  · intro hn
    refine ⟨{ s with
        program_counter := s.program_counter + 2
        registers := (s.registers.set (op / 256 % 16)
            (s.registers.get (op / 16 % 16) / 2)).set 15
            (s.registers.get (op / 16 % 16) % 2) }, ?_, ?_, ?_, ?_⟩
    · simp [do_instruction, dispatch, dispatch_fields, hf, Instruction.from_opcode, h8, hn, set_vx_to_vy_shr_1]
    · exact Registers.get_set_self _ 15 _ (by simp [Registers.set, hlen])
    · intro hx
      rw [Registers.get_set_ne _ _ _ _ hx,
        Registers.get_set_self _ _ _ (by rw [hlen]; exact Nat.mod_lt _ (by norm_num))]
    · intro j hj1 hj2
      rw [Registers.get_set_ne _ _ _ _ hj2, Registers.get_set_ne _ _ _ _ hj1]
  · intro hn
    refine ⟨{ s with
        program_counter := s.program_counter + 2
        registers := (s.registers.set (op / 256 % 16)
            (s.registers.get (op / 16 % 16) * 2 % 256)).set 15
            (s.registers.get (op / 16 % 16) / 128 % 2) }, ?_, ?_, ?_, ?_⟩
    · simp [do_instruction, dispatch, dispatch_fields, hf, Instruction.from_opcode, h8, hn, set_vx_to_vy_shl_1]
    · exact Registers.get_set_self _ 15 _ (by simp [Registers.set, hlen])
    · intro hx
      rw [Registers.get_set_ne _ _ _ _ hx,
        Registers.get_set_self _ _ _ (by rw [hlen]; exact Nat.mod_lt _ (by norm_num))]
    · intro j hj1 hj2
      rw [Registers.get_set_ne _ _ _ _ hj2, Registers.get_set_ne _ _ _ _ hj1]

open Chip8Main in
/-- C5 (counterexample): with `V1 = 0`, `V2 = 3`, executing 8126
(`SHR V1 {, V2}`) yields `VF = 1` and `V1 = 1` — the bit and the shifted
value came from `V2` — whereas the claim (source `V[x]` in place)
predicts `VF = V1 & 1 = 0` and `V1 = V1 >> 1 = 0`.  Likewise with
`V2 = 0x80`, executing 812E yields `VF = 1` where the claim predicts the
pre-operation MSB of `V1`, which is 0. -/
theorem c5_shift_in_place_refuted :
    v_of 15 (do_instruction quiet_input
        { machine0 [0x81, 0x26] with registers := Registers.new.set 2 3 }) = some 1 ∧
    v_of 1 (do_instruction quiet_input
        { machine0 [0x81, 0x26] with registers := Registers.new.set 2 3 }) = some 1 ∧
    (Registers.new.set 2 3).get 1 = 0 ∧
    v_of 15 (do_instruction quiet_input
        { machine0 [0x81, 0x2E] with registers := Registers.new.set 2 0x80 }) = some 1 ∧
    (Registers.new.set 2 0x80).get 1 = 0 := by
  decide

open Chip8Main in
/-- C5 (witness): the amended theorem applied to the concrete state with
`V2 = 3` and opcode 0x8126. -/
theorem c5_shift_source_is_vy_witness :
    ∃ s', do_instruction quiet_input
        { machine0 [0x81, 0x26] with registers := Registers.new.set 2 3 } = .ok s' ∧
      s'.registers.get 15 =
        ({ machine0 [0x81, 0x26] with
            registers := Registers.new.set 2 3 } : Emulator).registers.get 2 % 2 ∧
      ((1 : Nat) ≠ 15 →
        s'.registers.get 1 =
          ({ machine0 [0x81, 0x26] with
              registers := Registers.new.set 2 3 } : Emulator).registers.get 2 / 2) ∧
      (∀ j, j ≠ (1 : Nat) → j ≠ 15 →
        s'.registers.get j =
          ({ machine0 [0x81, 0x26] with
              registers := Registers.new.set 2 3 } : Emulator).registers.get j) :=
  (c5_shift_source_is_vy
    { machine0 [0x81, 0x26] with registers := Registers.new.set 2 3 }
    quiet_input 0x8126 (by decide) rfl (by decide)).1 rfl

open Chip8Main in
/-- C9 (amended): the bounded stack of `stack.rs` does refuse pushes at
16 pending addresses (leaving the stack unchanged) and refuses pops when
empty, and in the live `main.rs` executor RET with an empty call stack is
a fatal error; but `main.rs` uses a plain unbounded `Vec` as its call
stack, so executing CALL never fails — even with 16 addresses already
pending it simply pushes a seventeenth. -/
theorem c9_stack_error_behavior :
    (∀ (st : StackMod.Stack) (a : Nat),
      ((st.push a).1.isOk = true ↔ st.pointer < 16) ∧
      (16 ≤ st.pointer → (st.push a).2 = st)) ∧
    (∀ st : StackMod.Stack,
      ((st.pop).1.isOk = true ↔ st.pointer ≠ 0) ∧
      (st.pointer = 0 → (st.pop).2 = st)) ∧
    (∀ (s : Emulator) (inp : Input),
      s.call_stack = [] → fetch_opcode s = some 0x00EE →
      do_instruction inp s = .error .ret_outside_subroutine) ∧
    (∀ (s : Emulator) (inp : Input) (op : Nat),
      fetch_opcode s = some op → op / 4096 = 0x2 →
      do_instruction inp s = .ok { s with
        call_stack := (s.program_counter + 2) :: s.call_stack
        program_counter := op % 4096 }) := by
  refine ⟨?_, ?_, ?_, ?_⟩
  · intro st a
    constructor
    · simp only [StackMod.Stack.push, StackMod.STACK_SIZE]
      by_cases h : 16 ≤ st.pointer
      · simp [h, Except.isOk, Except.toBool]
      · simp [h, Except.isOk, Except.toBool]
        omega
    · intro h
      simp [StackMod.Stack.push, StackMod.STACK_SIZE, h]
  · intro st
    constructor
    · simp only [StackMod.Stack.pop]
      by_cases h : st.pointer = 0
      · simp [h, Except.isOk, Except.toBool]
      · simp [h, Except.isOk, Except.toBool]
    · intro h
      simp [StackMod.Stack.pop, h]
  · intro s inp hstack hf
    simp [do_instruction, dispatch, dispatch_fields, hf, Instruction.from_opcode,
      return_from_subroutine, hstack]
  · intro s inp op hf h2
    simp [do_instruction, dispatch, dispatch_fields, hf, Instruction.from_opcode, h2, call_subroutine]

open Chip8Main in
/-- C9 (counterexample): in `main.rs`, executing CALL from a state whose
call stack already holds 16 return addresses is not an error — the `Vec`
simply grows to depth 17 — refuting the claim that CALL with a full
16-entry stack is a fatal error. -/
theorem c9_call_on_full_stack_succeeds :
    is_err (do_instruction quiet_input
        { machine0 [0x22, 0x00] with call_stack := List.replicate 16 0x202 }) = false ∧
    depth_of (do_instruction quiet_input
        { machine0 [0x22, 0x00] with call_stack := List.replicate 16 0x202 }) =
      some 17 := by
  decide

open Chip8Main in
/-- C9 (witness): the amended theorem applied to a fresh `stack.rs`
stack, to the machine loaded with `[0x00, 0xEE]` (RET on an empty
stack), and to the machine loaded with `[0x22, 0x00]` (CALL 0x200). -/
theorem c9_stack_error_behavior_witness :
    (StackMod.Stack.new.push 7).1.isOk = true ∧
    do_instruction quiet_input (machine0 [0x00, 0xEE]) =
      .error .ret_outside_subroutine ∧
    do_instruction quiet_input (machine0 [0x22, 0x00]) =
      .ok { machine0 [0x22, 0x00] with
        call_stack := ((machine0 [0x22, 0x00]).program_counter + 2) ::
          (machine0 [0x22, 0x00]).call_stack
        program_counter := 0x2200 % 4096 } :=
  ⟨(c9_stack_error_behavior.1 StackMod.Stack.new 7).1.mpr (by decide),
   c9_stack_error_behavior.2.2.1 (machine0 [0x00, 0xEE]) quiet_input rfl (by decide),
   c9_stack_error_behavior.2.2.2 (machine0 [0x22, 0x00]) quiet_input 0x2200
     (by decide) rfl⟩

open Chip8Main in
/-- C7 (amended): in the live `main.rs` executor, every 16-bit opcode
not matching the dispatch table is a fatal `Unknown instruction` error —
that is, every opcode in the exact complement of the table: any opcode
with high nibble 0 other than `00E0`/`00EE` (including `0x0000`), any
`8xyn` with low nibble outside `{0,...,7,E}`, any `9xyn` with `n ≠ 0`,
any `Exkk` with `kk` outside `{9E, A1}`, and any `Fxkk` with `kk`
outside `{07, 0A, 15, 18, 1E, 29, 33, 55, 65}` (high nibbles `1`–`7` and
`A`–`D` always match).  Unmatched `8xyn` opcodes are also decode errors
in `instructions.rs`.  But the `instructions.rs` decoder maps `0x0000`
to a `Nop` (a no-op, not an error), and `parse_instructions` in
`instruction.rs` silently skips every opcode its table does not match
(the same families, except that it accepts every `9xyn`) instead of
failing. -/
theorem c7_unmatched_opcode_handling :
    (∀ (s : Emulator) (inp : Input) (op : Nat),
      fetch_opcode s = some op →
      (op / 4096 = 0x0 ∧ op ≠ 0x00E0 ∧ op ≠ 0x00EE) ∨
        (op / 4096 = 0x8 ∧ op % 16 ≠ 0x0 ∧ op % 16 ≠ 0x1 ∧ op % 16 ≠ 0x2 ∧
          op % 16 ≠ 0x3 ∧ op % 16 ≠ 0x4 ∧ op % 16 ≠ 0x5 ∧ op % 16 ≠ 0x6 ∧
          op % 16 ≠ 0x7 ∧ op % 16 ≠ 0xE) ∨
        (op / 4096 = 0x9 ∧ op % 16 ≠ 0x0) ∨
        (op / 4096 = 0xE ∧ op % 256 ≠ 0x9E ∧ op % 256 ≠ 0xA1) ∨
        (op / 4096 = 0xF ∧ op % 256 ≠ 0x07 ∧ op % 256 ≠ 0x0A ∧
          op % 256 ≠ 0x15 ∧ op % 256 ≠ 0x18 ∧ op % 256 ≠ 0x1E ∧
          op % 256 ≠ 0x29 ∧ op % 256 ≠ 0x33 ∧ op % 256 ≠ 0x55 ∧
          op % 256 ≠ 0x65) →
      do_instruction inp s = .error (.unknown_instruction op)) ∧
    (∀ op : Nat, op / 4096 = 0x8 →
      op % 16 ≠ 0x0 → op % 16 ≠ 0x1 → op % 16 ≠ 0x2 → op % 16 ≠ 0x3 →
      op % 16 ≠ 0x4 → op % 16 ≠ 0x5 → op % 16 ≠ 0x6 → op % 16 ≠ 0x7 →
      op % 16 ≠ 0xE →
      (Instrs.from_opcode op).isOk = false) ∧
    Instrs.decode_result 0x0000 = some .nop ∧
    (∀ (op : Nat) (rest : List Nat), InstrMod.parse_one op = none →
      InstrMod.parse_instructions (op :: rest) = InstrMod.parse_instructions rest) ∧
    (∀ op : Nat,
      (op / 4096 = 0x0 ∧ op ≠ 0x00E0 ∧ op ≠ 0x00EE) ∨
        (op / 4096 = 0x8 ∧ op % 16 ≠ 0x0 ∧ op % 16 ≠ 0x1 ∧ op % 16 ≠ 0x2 ∧
          op % 16 ≠ 0x3 ∧ op % 16 ≠ 0x4 ∧ op % 16 ≠ 0x5 ∧ op % 16 ≠ 0x6 ∧
          op % 16 ≠ 0x7 ∧ op % 16 ≠ 0xE) ∨
        (op / 4096 = 0xE ∧ op % 256 ≠ 0x9E ∧ op % 256 ≠ 0xA1) ∨
        (op / 4096 = 0xF ∧ op % 256 ≠ 0x07 ∧ op % 256 ≠ 0x0A ∧
          op % 256 ≠ 0x15 ∧ op % 256 ≠ 0x18 ∧ op % 256 ≠ 0x1E ∧
          op % 256 ≠ 0x29 ∧ op % 256 ≠ 0x33 ∧ op % 256 ≠ 0x55 ∧
          op % 256 ≠ 0x65) →
      InstrMod.parse_one op = none) := by
  refine ⟨?_, ?_, by decide, ?_, ?_⟩
  · intro s inp op hf hcase
    rcases hcase with ⟨hop, hne1, hne2⟩ |
      ⟨hop, h0, h1, h2, h3, h4, h5, h6, h7, hE⟩ | ⟨hop, hn⟩ |
      ⟨hop, he1, he2⟩ | ⟨hop, hf1, hf2, hf3, hf4, hf5, hf6, hf7, hf8, hf9⟩
    · simp [do_instruction, dispatch, dispatch_fields, hf,
        Instruction.from_opcode, hop, hne1, hne2]
    · simp [do_instruction, dispatch, dispatch_fields, hf,
        Instruction.from_opcode, hop, h0, h1, h2, h3, h4, h5, h6, h7, hE]
    · simp [do_instruction, dispatch, dispatch_fields, hf,
        Instruction.from_opcode, hop, hn]
    · simp [do_instruction, dispatch, dispatch_fields, hf,
        Instruction.from_opcode, hop, he1, he2]
    · simp [do_instruction, dispatch, dispatch_fields, hf,
        Instruction.from_opcode, hop, hf1, hf2, hf3, hf4, hf5, hf6, hf7,
        hf8, hf9]
  · intro op h8 h0 h1 h2 h3 h4 h5 h6 h7 hE
    simp [Instrs.from_opcode, h8, h0, h1, h2, h3, h4, h5, h6, h7, hE,
      Except.isOk, Except.toBool]
  · intro op rest h
    simp [InstrMod.parse_instructions, h]
  · intro op hcase
    rcases hcase with ⟨hop, hne1, hne2⟩ |
      ⟨hop, h0, h1, h2, h3, h4, h5, h6, h7, hE⟩ |
      ⟨hop, he1, he2⟩ | ⟨hop, hf1, hf2, hf3, hf4, hf5, hf6, hf7, hf8, hf9⟩
    · simp [InstrMod.parse_one, hop, hne1, hne2]
    · simp [InstrMod.parse_one, hop, h0, h1, h2, h3, h4, h5, h6, h7, hE]
    · simp [InstrMod.parse_one, hop, he1, he2]
    · simp [InstrMod.parse_one, hop, hf1, hf2, hf3, hf4, hf5, hf6, hf7,
        hf8, hf9]

open Chip8Main in
/-- C7 (counterexample): opcode `0x0000` is not a decode error in
`instructions.rs` — it decodes to `Nop` — and `parse_instructions` in
`instruction.rs` silently drops the unrecognized opcodes `0x0000` and
`0x8008` instead of aborting, refuting "no unrecognized opcode is
silently skipped or mapped to a no-op". -/
theorem c7_nop_and_silent_skip :
    Instrs.decode_result 0x0000 = some .nop ∧
    InstrMod.parse_instructions [0x0000, 0x8008] = [] := by
  decide

open Chip8Main in
/-- C7 (witness): the amended theorem applied at one concrete opcode of
each unmatched family — `0x00E1`, `0x8008`, `0x9121`, `0xE102`,
`0xF102` for the executor, `0x8008` for the `instructions.rs` decoder,
and `0x00E1` for the parser skip. -/
theorem c7_unmatched_opcode_handling_witness :
    do_instruction quiet_input (machine0 [0x00, 0xE1]) =
      .error (.unknown_instruction 0x00E1) ∧
    do_instruction quiet_input (machine0 [0x80, 0x08]) =
      .error (.unknown_instruction 0x8008) ∧
    do_instruction quiet_input (machine0 [0x91, 0x21]) =
      .error (.unknown_instruction 0x9121) ∧
    do_instruction quiet_input (machine0 [0xE1, 0x02]) =
      .error (.unknown_instruction 0xE102) ∧
    do_instruction quiet_input (machine0 [0xF1, 0x02]) =
      .error (.unknown_instruction 0xF102) ∧
    (Instrs.from_opcode 0x8008).isOk = false ∧
    InstrMod.parse_one 0x00E1 = none ∧
    InstrMod.parse_instructions [0x00E1, 0x00E0] =
      InstrMod.parse_instructions [0x00E0] :=
  ⟨c7_unmatched_opcode_handling.1 (machine0 [0x00, 0xE1]) quiet_input 0x00E1
     (by decide) (Or.inl ⟨by decide, by decide, by decide⟩),
   c7_unmatched_opcode_handling.1 (machine0 [0x80, 0x08]) quiet_input 0x8008
     (by decide) (Or.inr (Or.inl ⟨by decide, by decide, by decide, by decide,
       by decide, by decide, by decide, by decide, by decide, by decide⟩)),
   c7_unmatched_opcode_handling.1 (machine0 [0x91, 0x21]) quiet_input 0x9121
     (by decide) (Or.inr (Or.inr (Or.inl ⟨by decide, by decide⟩))),
   c7_unmatched_opcode_handling.1 (machine0 [0xE1, 0x02]) quiet_input 0xE102
     (by decide) (Or.inr (Or.inr (Or.inr (Or.inl ⟨by decide, by decide,
       by decide⟩)))),
   c7_unmatched_opcode_handling.1 (machine0 [0xF1, 0x02]) quiet_input 0xF102
     (by decide) (Or.inr (Or.inr (Or.inr (Or.inr ⟨by decide, by decide,
       by decide, by decide, by decide, by decide, by decide, by decide,
       by decide, by decide⟩)))),
   c7_unmatched_opcode_handling.2.1 0x8008 (by decide) (by decide) (by decide)
     (by decide) (by decide) (by decide) (by decide) (by decide) (by decide)
     (by decide),
   c7_unmatched_opcode_handling.2.2.2.2 0x00E1
     (Or.inl ⟨by decide, by decide, by decide⟩),
   c7_unmatched_opcode_handling.2.2.2.1 0x00E1 [0x00E0]
     (c7_unmatched_opcode_handling.2.2.2.2 0x00E1
       (Or.inl ⟨by decide, by decide, by decide⟩))⟩

open Chip8Main in
/-- C8: `memory.rs::load_program` errors exactly when the program
exceeds `0xDFF = 3583` bytes; on failure the memory value is unchanged;
on success it records `program_len`, copies the bytes to
`0x200..0x200+len`, and leaves the font region `0x000..0x04F` untouched. -/
theorem c8_load_program_contract :
    ∀ (m : MemoryMod.Memory) (bytes : List Nat),
      m.memory.length = MemoryMod.MEMORY_SIZE →
      (((m.load_program bytes).1.isOk = true) ↔ bytes.length ≤ 0xDFF) ∧
      (0xDFF < bytes.length → (m.load_program bytes).2 = m) ∧
      (bytes.length ≤ 0xDFF →
        (m.load_program bytes).2.program_len = bytes.length ∧
        (∀ j, j < bytes.length →
          (m.load_program bytes).2.memory.get? (0x200 + j) = bytes.get? j) ∧
        (∀ j, j < 0x50 →
          (m.load_program bytes).2.memory.get? j = m.memory.get? j)) := by
  intro m bytes hlen
  have hsz : MemoryMod.MEMORY_PROGRAM_SIZE = 0xDFF := rfl
  have hps : MemoryMod.MEMORY_PROGRAM_START = 0x200 := rfl
  have hlt : (m.memory.take MemoryMod.MEMORY_PROGRAM_START).length = 0x200 := by
    rw [List.length_take, hlen, hps]
    norm_num [MemoryMod.MEMORY_SIZE]
  refine ⟨?_, ?_, ?_⟩
  · by_cases h : bytes.length ≤ 0xDFF
    · have h' : ¬ (MemoryMod.MEMORY_PROGRAM_SIZE < bytes.length) := by
        rw [hsz]; omega
      simp [MemoryMod.Memory.load_program, h', Except.isOk, Except.toBool, h]
    · have h' : MemoryMod.MEMORY_PROGRAM_SIZE < bytes.length := by
        rw [hsz]; omega
      simp [MemoryMod.Memory.load_program, h', Except.isOk, Except.toBool, h]
  · intro h
    have h' : MemoryMod.MEMORY_PROGRAM_SIZE < bytes.length := by
      rw [hsz]; omega
    simp [MemoryMod.Memory.load_program, h']
  · intro h
    have h' : ¬ (MemoryMod.MEMORY_PROGRAM_SIZE < bytes.length) := by
      rw [hsz]; omega
    refine ⟨by simp [MemoryMod.Memory.load_program, h'], ?_, ?_⟩
    · intro j hj
      simp only [MemoryMod.Memory.load_program, if_neg h']
      rw [splice_at,
        List.get?_append (by rw [List.length_append, hlt]; omega),
        List.get?_append_right (by rw [hlt]; omega), hlt,
        Nat.add_sub_cancel_left]
    · intro j hj
      simp only [MemoryMod.Memory.load_program, if_neg h']
      rw [splice_at,
        List.get?_append (by rw [List.length_append, hlt]; omega),
        List.get?_append (by rw [hlt]; omega),
        List.get?_take (by omega)]

open Chip8Main in
/-- C8 (witness): the contract applied to the fresh memory and the
three-byte program `[1, 2, 3]`: the load succeeds, records length 3, and
places byte 2 at address 0x201 while font byte 0 stays 0xF0. -/
theorem c8_load_program_contract_witness :
    (MemoryMod.Memory.new.load_program [1, 2, 3]).1.isOk = true ∧
    (MemoryMod.Memory.new.load_program [1, 2, 3]).2.program_len = 3 ∧
    (MemoryMod.Memory.new.load_program [1, 2, 3]).2.memory.get? (0x200 + 1) =
      [1, 2, 3].get? 1 ∧
    (MemoryMod.Memory.new.load_program [1, 2, 3]).2.memory.get? 0 =
      MemoryMod.Memory.new.memory.get? 0 :=
  ⟨(c8_load_program_contract MemoryMod.Memory.new [1, 2, 3]
      memory_mod_new_length).1.mpr (by norm_num),
   ((c8_load_program_contract MemoryMod.Memory.new [1, 2, 3]
      memory_mod_new_length).2.2 (by norm_num)).1,
   ((c8_load_program_contract MemoryMod.Memory.new [1, 2, 3]
      memory_mod_new_length).2.2 (by norm_num)).2.1 1 (by norm_num),
   ((c8_load_program_contract MemoryMod.Memory.new [1, 2, 3]
      memory_mod_new_length).2.2 (by norm_num)).2.2 0 (by norm_num)⟩

namespace Chip8Main

/-- Reading any slot of a byte list yields a `u8` (the default is 0). -/
theorem wfbytes_getD : ∀ (l : List Nat), WfBytes l → ∀ k, l.getD k 0 < 256
  | [], _, k => by simp [List.getD]
  | a :: _, h, 0 => h a (by simp)
  | _ :: l, h, k + 1 => wfbytes_getD l (fun v hv => h v (by simp [hv])) k

/-- Writing a `u8` into a byte list keeps it a byte list. -/
theorem wfbytes_set {l : List Nat} (h : WfBytes l) {v : Nat} (hv : v < 256)
    (k : Nat) : WfBytes (l.set k v) := fun w hw =>
  (List.mem_or_eq_of_mem_set hw).elim (h w) (fun e => e ▸ hv)

/-- Every register read on a well-formed machine yields a `u8`. -/
theorem wf_get {s : Emulator} (h : Wf s) (k : Nat) : s.registers.get k < 256 :=
  wfbytes_getD s.registers.data h.1 k

/-- OR of two bytes is a byte. -/
theorem or_lt_256 {a b : Nat} (ha : a < 256) (hb : b < 256) : a ||| b < 256 := by
  have h := Nat.or_lt_two_pow (n := 8) ha hb
  simpa using h

/-- AND with a byte mask is a byte. -/
theorem and_lt_256 {a b : Nat} (hb : b < 256) : a &&& b < 256 :=
  lt_of_le_of_lt Nat.and_le_right hb

/-- XOR of two bytes is a byte. -/
theorem xor_lt_256 {a b : Nat} (ha : a < 256) (hb : b < 256) : a ^^^ b < 256 := by
  have h := Nat.xor_lt_two_pow (n := 8) ha hb
  simpa using h

/-- Well-formedness only depends on the four byte-typed components. -/
theorem wf_of_fields {s s' : Emulator} (h : Wf s)
    (hr : s'.registers.data = s.registers.data) (hm : s'.memory = s.memory)
    (hd : s'.delay_timer = s.delay_timer) (hst : s'.sound_timer = s.sound_timer) :
    Wf s' :=
  ⟨by rw [WfBytes, hr]; exact h.1, by rw [WfBytes, hm]; exact h.2.1,
   by rw [hd]; exact h.2.2.1, by rw [hst]; exact h.2.2.2⟩

/-- Writing a `u8` to a register preserves well-formedness. -/
theorem wf_set_reg {s : Emulator} (h : Wf s) {x v : Nat} (hv : v < 256) :
    Wf { s with registers := s.registers.set x v } :=
  ⟨wfbytes_set h.1 hv x, h.2.1, h.2.2.1, h.2.2.2⟩

/-- An in-bounds memory write of a `u8` preserves well-formedness. -/
theorem wf_write_mem {s s' : Emulator} {a v : Nat}
    (hh : write_mem s a v = some s') (h : Wf s) (hv : v < 256) : Wf s' := by
  unfold write_mem at hh
  split at hh
  · cases hh
    exact ⟨h.1, wfbytes_set h.2.1 hv a, h.2.2.1, h.2.2.2⟩
  · exact Option.noConfusion hh

/-- Embeds `clear_screen` preserves well-formedness. -/
theorem wf_clear_screen {s : Emulator} (h : Wf s) : Wf (clear_screen s) :=
  wf_of_fields h rfl rfl rfl rfl

/-- Embeds `jump` preserves well-formedness. -/
theorem wf_jump {s : Emulator} {nnn : Nat} (h : Wf s) : Wf (jump s nnn) :=
  wf_of_fields h rfl rfl rfl rfl

/-- Embeds `call_subroutine` preserves well-formedness. -/
theorem wf_call {s : Emulator} {nnn : Nat} (h : Wf s) :
    Wf (call_subroutine s nnn) :=
  wf_of_fields h rfl rfl rfl rfl

/-- Embeds `return_from_subroutine` preserves well-formedness. -/
theorem wf_ret {s s' : Emulator} (hh : return_from_subroutine s = .ok s')
    (h : Wf s) : Wf s' := by
  unfold return_from_subroutine at hh
  split at hh
  · cases hh
    exact wf_of_fields h rfl rfl rfl rfl
  · exact Except.noConfusion hh

/-- Embeds `skip_if_vx_equal_nn` preserves well-formedness. -/
theorem wf_skip_eq_nn {s : Emulator} {x nn : Nat} (h : Wf s) :
    Wf (skip_if_vx_equal_nn s x nn) := by
  unfold skip_if_vx_equal_nn
  split <;> exact wf_of_fields h rfl rfl rfl rfl

/-- Embeds `skip_if_vx_not_equal_nn` preserves well-formedness. -/
theorem wf_skip_ne_nn {s : Emulator} {x nn : Nat} (h : Wf s) :
    Wf (skip_if_vx_not_equal_nn s x nn) := by
  unfold skip_if_vx_not_equal_nn
  split <;> exact wf_of_fields h rfl rfl rfl rfl

/-- Embeds `skip_if_vx_equal_vy` preserves well-formedness. -/
theorem wf_skip_eq_vy {s : Emulator} {x y : Nat} (h : Wf s) :
    Wf (skip_if_vx_equal_vy s x y) := by
  unfold skip_if_vx_equal_vy
  split <;> exact wf_of_fields h rfl rfl rfl rfl

/-- Embeds `skip_if_vx_not_equal_vy` preserves well-formedness. -/
theorem wf_skip_ne_vy {s : Emulator} {x y : Nat} (h : Wf s) :
    Wf (skip_if_vx_not_equal_vy s x y) := by
  unfold skip_if_vx_not_equal_vy
  split <;> exact wf_of_fields h rfl rfl rfl rfl

/-- Embeds `store_nn_in_vx` preserves well-formedness when `nn` is a byte. -/
theorem wf_store_nn {s : Emulator} {x nn : Nat} (h : Wf s) (hnn : nn < 256) :
    Wf (store_nn_in_vx s x nn) := by
  unfold store_nn_in_vx
  exact wf_set_reg h hnn

/-- Embeds `add_nn_to_vx` preserves well-formedness (wrapping add). -/
theorem wf_add_nn {s : Emulator} {x nn : Nat} (h : Wf s) :
    Wf (add_nn_to_vx s x nn) := by
  unfold add_nn_to_vx
  exact wf_set_reg h (by omega)

/-- Embeds `store_vy_in_vx` preserves well-formedness. -/
theorem wf_store_vy {s : Emulator} {x y : Nat} (h : Wf s) :
    Wf (store_vy_in_vx s x y) := by
  unfold store_vy_in_vx
  exact wf_set_reg h (wf_get h y)

/-- Embeds `set_vx_to_vx_or_vy` preserves well-formedness. -/
theorem wf_or {s : Emulator} {x y : Nat} (h : Wf s) :
    Wf (set_vx_to_vx_or_vy s x y) := by
  unfold set_vx_to_vx_or_vy
  exact wf_set_reg h (or_lt_256 (wf_get h x) (wf_get h y))

/-- Embeds `set_vx_to_vx_and_vy` preserves well-formedness. -/
theorem wf_and {s : Emulator} {x y : Nat} (h : Wf s) :
    Wf (set_vx_to_vx_and_vy s x y) := by
  unfold set_vx_to_vx_and_vy
  exact wf_set_reg h (and_lt_256 (wf_get h y))

/-- Embeds `set_vx_to_vx_xor_vy` preserves well-formedness. -/
theorem wf_xor {s : Emulator} {x y : Nat} (h : Wf s) :
    Wf (set_vx_to_vx_xor_vy s x y) := by
  unfold set_vx_to_vx_xor_vy
  exact wf_set_reg h (xor_lt_256 (wf_get h x) (wf_get h y))

/-- Embeds `add_vy_to_vx` preserves well-formedness. -/
theorem wf_add_vy {s : Emulator} {x y : Nat} (h : Wf s) :
    Wf (add_vy_to_vx s x y) := by
  simp only [add_vy_to_vx]
  exact wf_set_reg (wf_set_reg h (by omega)) (by split <;> norm_num)

/-- Embeds `subtract_vy_from_vx` preserves well-formedness. -/
theorem wf_sub_vy {s : Emulator} {x y : Nat} (h : Wf s) :
    Wf (subtract_vy_from_vx s x y) := by
  simp only [subtract_vy_from_vx]
  exact wf_set_reg (wf_set_reg h (by omega)) (by split <;> norm_num)

/-- Embeds `set_vx_to_vy_shr_1` preserves well-formedness. -/
theorem wf_shr {s : Emulator} {x y : Nat} (h : Wf s) :
    Wf (set_vx_to_vy_shr_1 s x y) := by
  simp only [set_vx_to_vy_shr_1]
  have hy := wf_get h y
  exact wf_set_reg (wf_set_reg h (by omega)) (by omega)

/-- Embeds `set_vx_to_vy_minus_vx` preserves well-formedness. -/
theorem wf_subn {s : Emulator} {x y : Nat} (h : Wf s) :
    Wf (set_vx_to_vy_minus_vx s x y) := by
  simp only [set_vx_to_vy_minus_vx]
  exact wf_set_reg (wf_set_reg h (by omega)) (by split <;> norm_num)

/-- Embeds `set_vx_to_vy_shl_1` preserves well-formedness. -/
theorem wf_shl {s : Emulator} {x y : Nat} (h : Wf s) :
    Wf (set_vx_to_vy_shl_1 s x y) := by
  simp only [set_vx_to_vy_shl_1]
  exact wf_set_reg (wf_set_reg h (by omega)) (by omega)

/-- Embeds `store_nnn_in_i` preserves well-formedness. -/
theorem wf_store_i {s : Emulator} {nnn : Nat} (h : Wf s) :
    Wf (store_nnn_in_i s nnn) :=
  wf_of_fields h rfl rfl rfl rfl

/-- Embeds `jump_to_nnn_plus_v0` preserves well-formedness. -/
theorem wf_jump_v0 {s : Emulator} {nnn : Nat} (h : Wf s) :
    Wf (jump_to_nnn_plus_v0 s nnn) :=
  wf_of_fields h rfl rfl rfl rfl

/-- Embeds `set_vx_to_random_with_mask_nn` preserves well-formedness when the
mask is a byte. -/
theorem wf_rnd {inp : Input} {s : Emulator} {x nn : Nat} (h : Wf s)
    (hnn : nn < 256) : Wf (set_vx_to_random_with_mask_nn inp s x nn) := by
  unfold set_vx_to_random_with_mask_nn
  exact wf_set_reg h (and_lt_256 hnn)

/-- Embeds `xor_pixel` preserves well-formedness (it only flips a display bit). -/
theorem wf_xor_pixel {s : Emulator} (h : Wf s) (x y : Nat) :
    Wf (xor_pixel s x y).2 := by
  simp only [xor_pixel]
  exact wf_of_fields h rfl rfl rfl rfl

/-- Folding a well-formedness-preserving body preserves well-formedness. -/
theorem wf_foldl {f : Emulator → Nat → Emulator}
    (hf : ∀ s a, Wf s → Wf (f s a)) :
    ∀ (l : List Nat) (s : Emulator), Wf s → Wf (l.foldl f s)
  | [], _, h => h
  | a :: l, s, h => wf_foldl hf l (f s a) (hf s a h)

/-- One sprite row preserves well-formedness. -/
theorem wf_draw_row {vx y_pos sprite_byte : Nat} {s : Emulator} (h : Wf s) :
    Wf (draw_row vx y_pos sprite_byte s) := by
  unfold draw_row
  refine wf_foldl ?_ _ _ h
  intro t a ht
  dsimp only
  split
  · split
    · exact wf_set_reg (wf_xor_pixel ht _ _) (by norm_num)
    · exact wf_xor_pixel ht _ _
  · exact ht

/-- The sprite row loop preserves well-formedness. -/
theorem wf_draw_rows {vx vy i : Nat} :
    ∀ (rows row : Nat) {s s' : Emulator}, Wf s →
      draw_rows vx vy i rows row s = .ok s' → Wf s'
  | 0, _, _, _, h, hh => by
      cases hh
      exact h
  | rows + 1, row, s, s', h, hh => by
      simp only [draw_rows] at hh
      split at hh
      · exact Except.noConfusion hh
      · exact wf_draw_rows rows (row + 1) (wf_draw_row h) hh

/-- Embeds `draw_sprite` (main.rs) preserves well-formedness. -/
theorem wf_draw_sprite {s s' : Emulator} {x y n : Nat}
    (hh : draw_sprite s x y n = .ok s') (h : Wf s) : Wf s' := by
  simp only [draw_sprite] at hh
  exact wf_draw_rows n 0 h hh

/-- Embeds `skip_if_key_in_vx_down` preserves well-formedness. -/
theorem wf_skip_key {inp : Input} {s : Emulator} {x : Nat} (h : Wf s) :
    Wf (skip_if_key_in_vx_down inp s x) := by
  unfold skip_if_key_in_vx_down
  split <;> exact wf_of_fields h rfl rfl rfl rfl

/-- Embeds `skip_if_key_in_vx_not_down` preserves well-formedness. -/
theorem wf_skip_nkey {inp : Input} {s : Emulator} {x : Nat} (h : Wf s) :
    Wf (skip_if_key_in_vx_not_down inp s x) := by
  unfold skip_if_key_in_vx_not_down
  split <;> exact wf_of_fields h rfl rfl rfl rfl

/-- Embeds `store_delay_timer_in_vx` preserves well-formedness. -/
theorem wf_store_dt {s : Emulator} {x : Nat} (h : Wf s) :
    Wf (store_delay_timer_in_vx s x) := by
  unfold store_delay_timer_in_vx
  exact wf_set_reg h h.2.2.1

/-- Embeds `wait_for_key_and_store_in_vx` preserves well-formedness for valid
host inputs. -/
theorem wf_wait {inp : Input} {s : Emulator} {x : Nat} (hv : ValidInput inp)
    (h : Wf s) : Wf (wait_for_key_and_store_in_vx inp s x) := by
  unfold wait_for_key_and_store_in_vx
  cases hk : inp.pressed_key with
  | some k => exact wf_set_reg h (hv k hk)
  | none => exact wf_of_fields h rfl rfl rfl rfl

/-- Embeds `set_delay_timer_to_vx` preserves well-formedness. -/
theorem wf_set_dt {s : Emulator} {x : Nat} (h : Wf s) :
    Wf (set_delay_timer_to_vx s x) :=
  ⟨h.1, h.2.1, wf_get h x, h.2.2.2⟩

/-- Embeds `set_sound_timer_to_vx` preserves well-formedness. -/
theorem wf_set_st {s : Emulator} {x : Nat} (h : Wf s) :
    Wf (set_sound_timer_to_vx s x) :=
  ⟨h.1, h.2.1, h.2.2.1, wf_get h x⟩

/-- Embeds `add_vx_to_i` preserves well-formedness. -/
theorem wf_add_i {s : Emulator} {x : Nat} (h : Wf s) : Wf (add_vx_to_i s x) :=
  wf_of_fields h rfl rfl rfl rfl

/-- Embeds `set_i_to_addr_of_sprite_at_vx` preserves well-formedness. -/
theorem wf_set_i_sprite {s : Emulator} {x : Nat} (h : Wf s) :
    Wf (set_i_to_addr_of_sprite_at_vx s x) :=
  wf_of_fields h rfl rfl rfl rfl

/-- The BCD store preserves well-formedness. -/
theorem wf_bcd {s s' : Emulator} {x : Nat} (h : Wf s)
    (hh : store_binary_coded_decimal_of_vx_at_i s x = .ok s') : Wf s' := by
  have hvx := wf_get h x
  simp only [store_binary_coded_decimal_of_vx_at_i] at hh
  split at hh
  · exact Except.noConfusion hh
  · next s1 hw1 =>
      split at hh
      · exact Except.noConfusion hh
      · next s2 hw2 =>
          split at hh
          · exact Except.noConfusion hh
          · next s3 hw3 =>
              cases hh
              exact wf_write_mem hw3
                (wf_write_mem hw2 (wf_write_mem hw1 h (by omega)) (by omega))
                (by omega)

/-- The Fx55 store loop preserves well-formedness. -/
theorem wf_store_regs_loop {i : Nat} :
    ∀ (cnt off : Nat) {s s' : Emulator}, Wf s →
      store_regs_loop i cnt off s = .ok s' → Wf s'
  | 0, _, _, _, h, hh => by
      cases hh
      exact h
  | cnt + 1, off, s, s', h, hh => by
      simp only [store_regs_loop] at hh
      split at hh
      · exact Except.noConfusion hh
      · next s1 hw =>
          exact wf_store_regs_loop cnt (off + 1)
            (wf_write_mem hw h (wf_get h off)) hh

/-- Fx55 preserves well-formedness. -/
theorem wf_store_v0 {s s' : Emulator} {x : Nat} (h : Wf s)
    (hh : store_v0_to_vx_in_memory_at_i s x = .ok s') : Wf s' := by
  simp only [store_v0_to_vx_in_memory_at_i] at hh
  exact wf_store_regs_loop (x + 1) 0 h hh

/-- The Fx65 load loop preserves well-formedness. -/
theorem wf_load_regs_loop {i : Nat} :
    ∀ (cnt off : Nat) {s s' : Emulator}, Wf s →
      load_regs_loop i cnt off s = .ok s' → Wf s'
  | 0, _, _, _, h, hh => by
      cases hh
      exact h
  | cnt + 1, off, s, s', h, hh => by
      simp only [load_regs_loop] at hh
      split at hh
      · exact Except.noConfusion hh
      · next v hv =>
          exact wf_load_regs_loop cnt (off + 1)
            (wf_set_reg h (h.2.1 v (List.get?_mem hv))) hh

/-- Fx65 preserves well-formedness. -/
theorem wf_load_v0 {s s' : Emulator} {x : Nat} (h : Wf s)
    (hh : load_v0_to_vx_from_memory_at_i s x = .ok s') : Wf s' := by
  simp only [load_v0_to_vx_from_memory_at_i] at hh
  exact wf_load_regs_loop (x + 1) 0 h hh

/-- The timer tick preserves well-formedness. -/
theorem wf_update_timers {s : Emulator} (h : Wf s) : Wf (update_timers s).2 := by
  unfold update_timers
  split
  · exact h
  · refine ⟨h.1, h.2.1, ?_, ?_⟩
    · have := h.2.2.1
      dsimp only
      split <;> omega
    · have := h.2.2.2
      dsimp only
      split <;> omega

/-- The decoded immediate byte is below 256. -/
theorem instr_nn_lt (opcode : Nat) : (Instruction.from_opcode opcode).nn < 256 := by
  simp only [Instruction.from_opcode]
  omega

set_option maxHeartbeats 1000000 in
/-- The instruction dispatch over destructured fields preserves
well-formedness when the immediate byte is a byte. -/
theorem wf_dispatch_fields {inp : Input} {opcode op x y n nn nnn : Nat}
    {s s' : Emulator} (hv : ValidInput inp) (h : Wf s) (hnn : nn < 256)
    (hh : dispatch_fields inp opcode op x y n nn nnn s = .ok s') : Wf s' := by
  unfold dispatch_fields at hh
  by_cases hc0 : op = 0x0 ∧ opcode = 0x00E0
  · rw [if_pos hc0] at hh
    cases hh
    exact wf_clear_screen h
  · rw [if_neg hc0] at hh
    by_cases hc1 : op = 0x0 ∧ opcode = 0x00EE
    · rw [if_pos hc1] at hh
      exact wf_ret hh h
    · rw [if_neg hc1] at hh
      by_cases hc2 : op = 0x1
      · rw [if_pos hc2] at hh
        cases hh
        exact wf_jump h
      · rw [if_neg hc2] at hh
        by_cases hc3 : op = 0x2
        · rw [if_pos hc3] at hh
          cases hh
          exact wf_call h
        · rw [if_neg hc3] at hh
          by_cases hc4 : op = 0x3
          · rw [if_pos hc4] at hh
            cases hh
            exact wf_skip_eq_nn h
          · rw [if_neg hc4] at hh
            by_cases hc5 : op = 0x4
            · rw [if_pos hc5] at hh
              cases hh
              exact wf_skip_ne_nn h
            · rw [if_neg hc5] at hh
              by_cases hc6 : op = 0x5
              · rw [if_pos hc6] at hh
                cases hh
                exact wf_skip_eq_vy h
              · rw [if_neg hc6] at hh
                by_cases hc7 : op = 0x6
                · rw [if_pos hc7] at hh
                  cases hh
                  exact wf_store_nn h hnn
                · rw [if_neg hc7] at hh
                  by_cases hc8 : op = 0x7
                  · rw [if_pos hc8] at hh
                    cases hh
                    exact wf_add_nn h
                  · rw [if_neg hc8] at hh
                    by_cases hc9 : op = 0x8 ∧ n = 0x0
                    · rw [if_pos hc9] at hh
                      cases hh
                      exact wf_store_vy h
                    · rw [if_neg hc9] at hh
                      by_cases hc10 : op = 0x8 ∧ n = 0x1
                      · rw [if_pos hc10] at hh
                        cases hh
                        exact wf_or h
                      · rw [if_neg hc10] at hh
                        by_cases hc11 : op = 0x8 ∧ n = 0x2
                        · rw [if_pos hc11] at hh
                          cases hh
                          exact wf_and h
                        · rw [if_neg hc11] at hh
                          by_cases hc12 : op = 0x8 ∧ n = 0x3
                          · rw [if_pos hc12] at hh
                            cases hh
                            exact wf_xor h
                          · rw [if_neg hc12] at hh
                            by_cases hc13 : op = 0x8 ∧ n = 0x4
                            · rw [if_pos hc13] at hh
                              cases hh
                              exact wf_add_vy h
                            · rw [if_neg hc13] at hh
                              by_cases hc14 : op = 0x8 ∧ n = 0x5
                              · rw [if_pos hc14] at hh
                                cases hh
                                exact wf_sub_vy h
                              · rw [if_neg hc14] at hh
                                by_cases hc15 : op = 0x8 ∧ n = 0x6
                                · rw [if_pos hc15] at hh
                                  cases hh
                                  exact wf_shr h
                                · rw [if_neg hc15] at hh
                                  by_cases hc16 : op = 0x8 ∧ n = 0x7
                                  · rw [if_pos hc16] at hh
                                    cases hh
                                    exact wf_subn h
                                  · rw [if_neg hc16] at hh
                                    by_cases hc17 : op = 0x8 ∧ n = 0xE
                                    · rw [if_pos hc17] at hh
                                      cases hh
                                      exact wf_shl h
                                    · rw [if_neg hc17] at hh
                                      by_cases hc18 : op = 0x9 ∧ n = 0x0
                                      · rw [if_pos hc18] at hh
                                        cases hh
                                        exact wf_skip_ne_vy h
                                      · rw [if_neg hc18] at hh
                                        by_cases hc19 : op = 0xA
                                        · rw [if_pos hc19] at hh
                                          cases hh
                                          exact wf_store_i h
                                        · rw [if_neg hc19] at hh
                                          by_cases hc20 : op = 0xB
                                          · rw [if_pos hc20] at hh
                                            cases hh
                                            exact wf_jump_v0 h
                                          · rw [if_neg hc20] at hh
                                            by_cases hc21 : op = 0xC
                                            · rw [if_pos hc21] at hh
                                              cases hh
                                              exact wf_rnd h hnn
                                            · rw [if_neg hc21] at hh
                                              by_cases hc22 : op = 0xD
                                              · rw [if_pos hc22] at hh
                                                exact wf_draw_sprite hh h
                                              · rw [if_neg hc22] at hh
                                                by_cases hc23 : op = 0xE ∧ nn = 0x9E
                                                · rw [if_pos hc23] at hh
                                                  cases hh
                                                  exact wf_skip_key h
                                                · rw [if_neg hc23] at hh
                                                  by_cases hc24 : op = 0xE ∧ nn = 0xA1
                                                  · rw [if_pos hc24] at hh
                                                    cases hh
                                                    exact wf_skip_nkey h
                                                  · rw [if_neg hc24] at hh
                                                    by_cases hc25 : op = 0xF ∧ nn = 0x07
                                                    · rw [if_pos hc25] at hh
                                                      cases hh
                                                      exact wf_store_dt h
                                                    · rw [if_neg hc25] at hh
                                                      by_cases hc26 : op = 0xF ∧ nn = 0x0A
                                                      · rw [if_pos hc26] at hh
                                                        cases hh
                                                        exact wf_wait hv h
                                                      · rw [if_neg hc26] at hh
                                                        by_cases hc27 : op = 0xF ∧ nn = 0x15
                                                        · rw [if_pos hc27] at hh
                                                          cases hh
                                                          exact wf_set_dt h
                                                        · rw [if_neg hc27] at hh
                                                          by_cases hc28 : op = 0xF ∧ nn = 0x18
                                                          · rw [if_pos hc28] at hh
                                                            cases hh
                                                            exact wf_set_st h
                                                          · rw [if_neg hc28] at hh
                                                            by_cases hc29 : op = 0xF ∧ nn = 0x1E
                                                            · rw [if_pos hc29] at hh
                                                              cases hh
                                                              exact wf_add_i h
                                                            · rw [if_neg hc29] at hh
                                                              by_cases hc30 : op = 0xF ∧ nn = 0x29
                                                              · rw [if_pos hc30] at hh
                                                                cases hh
                                                                exact wf_set_i_sprite h
                                                              · rw [if_neg hc30] at hh
                                                                by_cases hc31 : op = 0xF ∧ nn = 0x33
                                                                · rw [if_pos hc31] at hh
                                                                  exact wf_bcd h hh
                                                                · rw [if_neg hc31] at hh
                                                                  by_cases hc32 : op = 0xF ∧ nn = 0x55
                                                                  · rw [if_pos hc32] at hh
                                                                    exact wf_store_v0 h hh
                                                                  · rw [if_neg hc32] at hh
                                                                    by_cases hc33 : op = 0xF ∧ nn = 0x65
                                                                    · rw [if_pos hc33] at hh
                                                                      exact wf_load_v0 h hh
                                                                    · rw [if_neg hc33] at hh
                                                                      exact Except.noConfusion hh

/-- The instruction dispatch preserves well-formedness. -/
theorem wf_dispatch {inp : Input} {opcode : Nat} {s s' : Emulator}
    (hv : ValidInput inp) (h : Wf s) (hh : dispatch inp opcode s = .ok s') :
    Wf s' := by
  unfold dispatch at hh
  exact wf_dispatch_fields hv h (instr_nn_lt opcode) hh

/-- One executed instruction preserves well-formedness. -/
theorem wf_do_instruction {inp : Input} {s s' : Emulator} (hv : ValidInput inp)
    (h : Wf s) (hh : do_instruction inp s = .ok s') : Wf s' := by
  unfold do_instruction at hh
  cases hf : fetch_opcode s with
  | none =>
      rw [hf] at hh
      exact Except.noConfusion hh
  | some opcode =>
      rw [hf] at hh
      have h2 : Wf { s with program_counter := s.program_counter + 2 } :=
        wf_of_fields h rfl rfl rfl rfl
      exact wf_dispatch hv h2 hh

/-- One driver cycle preserves well-formedness. -/
theorem wf_do_cycle {inp : Input} {s s' : Emulator} (hv : ValidInput inp)
    (h : Wf s) (hh : do_cycle inp s = .ok s') : Wf s' := by
  simp only [do_cycle] at hh
  split at hh
  · cases hh
    exact wf_update_timers h
  · exact wf_do_instruction hv (wf_update_timers h) hh

/-- The fresh memory holds only bytes. -/
theorem wf_memory_new : WfBytes memory_new := by
  intro v hv
  rcases List.mem_append.1 hv with h1 | h2
  · have hf : ∀ w ∈ FONTSET, w < 256 := by decide
    exact hf v h1
  · have := List.eq_of_mem_replicate h2
    omega

/-- A freshly loaded machine is well-formed when the program consists of
bytes. -/
theorem wf_machine0 {p : List Nat} (hp : ∀ b ∈ p, b < 256) : Wf (machine0 p) := by
  refine ⟨?_, ?_, by norm_num [machine0], by norm_num [machine0]⟩
  · intro v hv
    have hv' : v ∈ List.replicate 16 0 := hv
    have := List.eq_of_mem_replicate hv'
    omega
  · intro v hv
    have hv' : v ∈ memory_new.take MEMORY_PROGRAM_START ++ p ++
        memory_new.drop (MEMORY_PROGRAM_START + p.length) := hv
    rcases List.mem_append.1 hv' with h1 | h2
    · rcases List.mem_append.1 h1 with h1a | h1b
      · exact wf_memory_new v (List.take_subset _ _ h1a)
      · exact hp v h1b
    · exact wf_memory_new v (List.drop_subset _ _ h2)

end Chip8Main

open Chip8Main in
/-- C3 (amended): every V register of every state reachable from a
freshly constructed machine with a loaded byte program is in
`[0, 255]`.  (The PC/I/stack-depth bounds of the original claim fail:
see the counterexample theorem.) -/
theorem c3_v_registers_bounded :
    ∀ (p : List Nat) (s : Emulator),
      (∀ b ∈ p, b < 256) →
      Reach (machine0 p) s →
      ∀ k, s.registers.get k < 256 := by
  intro p s hp hr k
  have hwf : Wf s := by
    induction hr with
    | init => exact wf_machine0 hp
    | step hr hvi hc ih => exact wf_do_cycle hvi ih hc
  exact wf_get hwf k

open Chip8Main in
/-- C3 (witness): the amended bound applied to the freshly loaded
machine for the two-byte program `[0x60, 0x02]` at register 0. -/
theorem c3_v_registers_bounded_witness :
    (machine0 [0x60, 0x02]).registers.get 0 < 256 :=
  c3_v_registers_bounded [0x60, 0x02] (machine0 [0x60, 0x02])
    (by decide) Reach.init 0
